import Mathlib

/-!
Verification of the librespot-web player engine and control facade.

Shallow embedding conventions:
* Rust `f64` values are modelled as real numbers (`ℝ`); the floating-point
  operations used by the sources (`+`, `*`, `/`, `abs`, `powf`) are mapped to
  the corresponding real operations.
* Rust `u32`/`u64`/`u16` values are modelled as `ℕ` with explicit saturation
  or truncation where the source saturates or truncates.
* Opaque resources (decoders, stream-loader controllers, loader futures,
  sinks, channels) are abstracted away; the fields of the player state that
  the claims speak about (ids, positions, durations, flags, timestamps) are
  kept.  `std::time::Instant` is modelled as an integer number of
  milliseconds.
* Fatal paths (`exit(1)` on observing the `Invalid` state) are modelled by
  returning `none`.
-/

/-! ## Configuration (src/playback: config::PlayerConfig, the fields used by player.rs) -/

inductive NormalisationType where
  | Album
  | Track
  | Auto
deriving DecidableEq

inductive NormalisationMethod where
  | Basic
  | Dynamic
deriving DecidableEq

structure PlayerConfig where
  gapless : Bool
  passthrough : Bool
  normalisation : Bool
  normalisation_type : NormalisationType
  normalisation_method : NormalisationMethod
  normalisation_pregain : ℝ
  normalisation_threshold : ℝ
  /-- `normalisation_attack.as_secs_f64()` -/
  normalisation_attack : ℝ
  /-- `normalisation_release.as_secs_f64()` -/
  normalisation_release : ℝ
  normalisation_knee : ℝ

/-- `DB_VOLTAGE_RATIO` (player.rs line 40). -/

def dbVoltageRatio : ℝ := 20.0

/-- `db_to_ratio` (player.rs lines 218-220): `f64::powf(10.0, db / DB_VOLTAGE_RATIO)`. -/

noncomputable def db_to_ratio (db : ℝ) : ℝ := (10 : ℝ) ^ (db / dbVoltageRatio)

/-! ## NormalisationData (player.rs lines 226-316) -/

structure NormalisationData where
  track_gain_db : ℝ
  track_peak : ℝ
  album_gain_db : ℝ
  album_peak : ℝ

/-- `NormalisationData::default` (player.rs lines 236-245). -/

def NormalisationData.default : NormalisationData :=
  { track_gain_db := 0.0
    track_peak := 1.0
    album_gain_db := 0.0
    album_peak := 1.0 }

/-- `NormalisationData::get_factor` (player.rs lines 276-315). -/

noncomputable def NormalisationData.get_factor (config : PlayerConfig)
    (data : NormalisationData) : ℝ :=
  if ¬ config.normalisation then 1.0
  else
    let gain_db : ℝ :=
      if config.normalisation_type = NormalisationType.Album then data.album_gain_db
      else data.track_gain_db
    let gain_peak : ℝ :=
      if config.normalisation_type = NormalisationType.Album then data.album_peak
      else data.track_peak
    let normalisation_power := gain_db + config.normalisation_pregain
    let normalisation_factor := db_to_ratio normalisation_power
    if normalisation_factor * gain_peak > config.normalisation_threshold then
      if config.normalisation_method = NormalisationMethod.Basic then
        config.normalisation_threshold / gain_peak
      else
        normalisation_factor
    else
      normalisation_factor

/-- The factor as described by the spec sentences of claim C2: 1.0 when
normalisation is disabled; otherwise `10^((gain_db + pregain)/20)` for the
selected (album or track) gain, except that when that factor times the
corresponding peak exceeds the threshold and the method is Basic the result
is `threshold / peak`; for the Dynamic method the factor is unchanged. -/

noncomputable def getFactorClaimC2 (config : PlayerConfig)
    (data : NormalisationData) : ℝ :=
  if config.normalisation = false then 1.0
  else
    let gain_db : ℝ :=
      if config.normalisation_type = NormalisationType.Album then data.album_gain_db
      else data.track_gain_db
    let peak : ℝ :=
      if config.normalisation_type = NormalisationType.Album then data.album_peak
      else data.track_peak
    let factor : ℝ := (10 : ℝ) ^ ((gain_db + config.normalisation_pregain) / (20 : ℝ))
    if factor * peak > config.normalisation_threshold ∧
        config.normalisation_method = NormalisationMethod.Basic then
      config.normalisation_threshold / peak
    else
      factor

/-! ## The dynamic limiter (player.rs lines 1366-1514)

`SAMPLES_PER_SECOND` is a constant of the playback crate whose defining
module is not part of the sources at hand, so all definitions below are
parametric in its value `samples_per_second`; every theorem is proved for an
arbitrary value of that parameter. -/

/-- `u32::MAX`. -/

def u32MAX : ℕ := 2 ^ 32 - 1

/-- `u32::saturating_add` on `ℕ`-modelled `u32` values. -/

def satAddU32 (a b : ℕ) : ℕ := min (a + b) u32MAX

/-- Rust `f64 as u32`: round toward zero, saturating at the bounds of `u32`.
For non-negative reals this is the floor, clamped to `u32::MAX`; negative
reals go to `0`. -/

noncomputable def f64AsU32 (x : ℝ) : ℕ := min (Int.toNat ⌊x⌋) u32MAX

/-- The limiter fields of `PlayerInternal` (player.rs lines 78-83). -/

structure LimiterState where
  limiter_active : Bool
  limiter_attack_counter : ℕ
  limiter_release_counter : ℕ
  limiter_peak_sample : ℝ
  limiter_factor : ℝ
  limiter_strength : ℝ

/-- The limiter fields of the freshly constructed `PlayerInternal`
(player.rs lines 370-375). -/

def initialLimiterState : LimiterState :=
  { limiter_active := false
    limiter_attack_counter := 0
    limiter_release_counter := 0
    limiter_peak_sample := 0.0
    limiter_factor := 1.0
    limiter_strength := 0.0 }

/-- `PlayerInternal::reset_limiter` (player.rs lines 1507-1514). -/

def resetLimiter : LimiterState :=
  { limiter_active := false
    limiter_release_counter := 0
    limiter_attack_counter := 0
    limiter_peak_sample := 0.0
    limiter_factor := 1.0
    limiter_strength := 0.0 }

/-- The per-sample limiter state update of `PlayerInternal::handle_packet`
(player.rs lines 1404-1469).  Note that the source first caches
`limiter_release_counter` and `limiter_attack_counter` as `f64` locals
(lines 1408-1410) and later computes `limiter_strength` from those cached
pre-update values (lines 1433-1434 and 1464-1467). -/

noncomputable def limiterUpdate (config : PlayerConfig) (samples_per_second : ℝ)
    (st : LimiterState) (sample : ℝ) (normalisation_factor : ℝ) : LimiterState :=
  let normalisation_attack := config.normalisation_attack
  let normalisation_release := config.normalisation_release
  -- the cached `as f64` casts of lines 1408-1410
  let limiter_release_counter : ℝ := st.limiter_release_counter
  let limiter_attack_counter : ℝ := st.limiter_attack_counter
  let abs_sample := |sample * normalisation_factor|
  if abs_sample > config.normalisation_threshold then
    let st₁ := { st with limiter_active := true }
    let st₂ :=
      if st₁.limiter_release_counter > 0 then
        { st₁ with
          limiter_attack_counter :=
            f64AsU32 ((samples_per_second * normalisation_release -
                limiter_release_counter) /
              (normalisation_release / normalisation_attack))
          limiter_release_counter := 0 }
      else st₁
    let st₃ :=
      { st₂ with limiter_attack_counter := satAddU32 st₂.limiter_attack_counter 1 }
    let st₄ :=
      { st₃ with
        limiter_strength :=
          limiter_attack_counter / (samples_per_second * normalisation_attack) }
    if abs_sample > st₄.limiter_peak_sample then
      { st₄ with
        limiter_peak_sample := abs_sample
        limiter_factor := config.normalisation_threshold / abs_sample }
    else st₄
  else if st.limiter_active then
    let st₁ :=
      if st.limiter_attack_counter > 0 then
        { st with
          limiter_release_counter :=
            f64AsU32 ((samples_per_second * normalisation_attack -
                limiter_attack_counter) *
              (normalisation_release / normalisation_attack))
          limiter_attack_counter := 0 }
      else st
    let st₂ :=
      { st₁ with limiter_release_counter := satAddU32 st₁.limiter_release_counter 1 }
    if st₂.limiter_release_counter >
        f64AsU32 (samples_per_second * normalisation_release) then
      resetLimiter
    else
      { st₂ with
        limiter_strength :=
          (samples_per_second * normalisation_release - limiter_release_counter) /
            (samples_per_second * normalisation_release) }
  else st

/-- The knee shaping of the limiter strength (player.rs lines 1386-1397). -/

noncomputable def shapedStrength (knee strength : ℝ) : ℝ :=
  if strength > 0.0 ∧ strength < 1.0 then
    1.0 / (1.0 + (strength / (1.0 - strength)) ^ (-knee))
  else strength

/-- The factor actually applied to a sample (player.rs lines 1376-1401): the
blend of the static factor and the limiter factor while the limiter is
active (computed from the limiter state before the per-sample update). -/

noncomputable def actualFactor (config : PlayerConfig) (st : LimiterState)
    (normalisation_factor : ℝ) : ℝ :=
  if st.limiter_active then
    let shaped := shapedStrength config.normalisation_knee st.limiter_strength
    (1.0 - shaped) * normalisation_factor + shaped * st.limiter_factor
  else normalisation_factor

/-- One iteration of the per-sample loop of `handle_packet`
(player.rs lines 1375-1472): returns the updated limiter state and the
output sample. -/

noncomputable def processSample (config : PlayerConfig) (samples_per_second : ℝ)
    (normalisation_factor : ℝ) (st : LimiterState) (sample : ℝ) :
    LimiterState × ℝ :=
  if config.normalisation_method = NormalisationMethod.Dynamic then
    let f := actualFactor config st normalisation_factor
    (limiterUpdate config samples_per_second st sample normalisation_factor,
      sample * f)
  else
    (st, sample * normalisation_factor)

/-- The per-sample loop of `handle_packet` over the whole packet. -/

noncomputable def processSamples (config : PlayerConfig) (samples_per_second : ℝ)
    (normalisation_factor : ℝ) (st : LimiterState) :
    List ℝ → LimiterState × List ℝ
  | [] => (st, [])
  | s :: rest =>
    let r₁ := processSample config samples_per_second normalisation_factor st s
    let r₂ := processSamples config samples_per_second normalisation_factor r₁.1 rest
    (r₂.1, r₁.2 :: r₂.2)

/-- `f64::EPSILON`. -/

noncomputable def f64EPSILON : ℝ := 2 ^ (-(52 : ℤ))

/-- `PlayerInternal::handle_packet` for a `Some` samples packet
(player.rs lines 1366-1484): the limiter state after the packet together
with the samples written to the sink (`none` when the packet is empty and
nothing is written).  `audio_filter` is the optional installed
`AudioFilter` (line 1475).  The `None` packet branch (end of stream,
lines 1487-1503) changes the player state, not the limiter state, and is
modelled by the engine step function below. -/

noncomputable def handle_packet (config : PlayerConfig) (samples_per_second : ℝ)
    (audio_filter : Option (List ℝ → List ℝ)) (st : LimiterState)
    (normalisation_factor : ℝ) (data : List ℝ) : LimiterState × Option (List ℝ) :=
  if data.isEmpty then (st, none)
  else
    let r :=
      if config.normalisation = true ∧
          ¬(|normalisation_factor - 1.0| ≤ f64EPSILON ∧
            config.normalisation_method = NormalisationMethod.Basic) then
        processSamples config samples_per_second normalisation_factor st data
      else (st, data)
    let out :=
      match audio_filter with
      | some editor => editor r.2
      | none => r.2
    (r.1, some out)

/-! ## The player engine state machine (player.rs lines 495-2009)

Track ids (`SpotifyId`) and `play_request_id`s are modelled as `ℕ`;
`Instant` as an integer count of milliseconds.  The decoder, the
stream-loader controller, the loader futures, the normalisation data and
the computed normalisation factor carried inside the state variants are
resources consumed only by the DSP part above and are abstracted away
here; the remaining fields are kept with their source names. -/

/-- `SinkStatus` (player.rs lines 54-59). -/

inductive SinkStatus where
  | Running
  | Closed
  | TemporarilyClosed
deriving DecidableEq

/-- The fields of `PlayerLoadedTrackData` (player.rs lines 487-495) that the
claims refer to. -/

structure LoadedTrackData where
  duration_ms : ℕ
  stream_position_ms : ℕ
  is_explicit : Bool
deriving DecidableEq

/-- `PlayerState` (player.rs lines 510-552). -/

inductive PState where
  | Stopped
  | Loading (track_id : ℕ) (play_request_id : ℕ) (start_playback : Bool)
  | Paused (track_id : ℕ) (play_request_id : ℕ) (duration_ms : ℕ)
      (stream_position_ms : ℕ) (suggested_to_preload_next_track : Bool)
      (is_explicit : Bool)
  | Playing (track_id : ℕ) (play_request_id : ℕ) (duration_ms : ℕ)
      (stream_position_ms : ℕ) (reported_nominal_start_time : Option ℤ)
      (suggested_to_preload_next_track : Bool) (is_explicit : Bool)
  | EndOfTrack (track_id : ℕ) (play_request_id : ℕ)
      (loaded_track : LoadedTrackData)
  | Invalid
deriving DecidableEq

/-- `PlayerPreload` (player.rs lines 497-507); the loader future of the
`Loading` variant and the `LoadedTrackData` payload of `Ready` are
abstracted. -/

inductive PreloadState where
  | None
  | Loading (track_id : ℕ)
  | Ready (track_id : ℕ) (loaded_track : LoadedTrackData)
deriving DecidableEq

/-- `PlayerEvent` (player.rs lines 109-181), with fields in source order. -/

inductive Event where
  | Stopped (play_request_id : ℕ) (track_id : ℕ)
  | Started (play_request_id : ℕ) (track_id : ℕ) (position_ms : ℕ)
  | Changed (old_track_id : ℕ) (new_track_id : ℕ)
  | Loading (play_request_id : ℕ) (track_id : ℕ) (position_ms : ℕ)
  | Preloading (track_id : ℕ)
  | Playing (play_request_id : ℕ) (track_id : ℕ) (position_ms : ℕ)
      (duration_ms : ℕ)
  | Paused (play_request_id : ℕ) (track_id : ℕ) (position_ms : ℕ)
      (duration_ms : ℕ)
  | TimeToPreloadNextTrack (play_request_id : ℕ) (track_id : ℕ)
  | EndOfTrack (play_request_id : ℕ) (track_id : ℕ)
  | Unavailable (play_request_id : ℕ) (track_id : ℕ)
  | VolumeSet (volume : ℕ)
deriving DecidableEq

/-- The mutable engine fields of `PlayerInternal` (player.rs lines 63-86)
that the claims refer to. -/

structure EngineState where
  state : PState
  preload : PreloadState
  sink_status : SinkStatus
deriving DecidableEq

/-- The engine fields at construction (player.rs lines 355-378). -/

def initialEngineState : EngineState :=
  { state := PState.Stopped
    preload := PreloadState.None
    sink_status := SinkStatus.Closed }

/-- `PlayerInternal::ensure_sink_running` (player.rs lines 1235-1249);
the sink itself and the status callback are abstracted. -/

def ensure_sink_running (s : EngineState) : EngineState :=
  if s.sink_status ≠ SinkStatus.Running then
    { s with sink_status := SinkStatus.Running }
  else s

/-- `PlayerInternal::ensure_sink_stopped` (player.rs lines 1251-1282). -/

def ensure_sink_stopped (s : EngineState) (temporarily : Bool) : EngineState :=
  match s.sink_status with
  | SinkStatus.Running =>
    { s with
      sink_status :=
        if temporarily then SinkStatus.TemporarilyClosed else SinkStatus.Closed }
  | SinkStatus.TemporarilyClosed =>
    if ¬ temporarily then { s with sink_status := SinkStatus.Closed } else s
  | SinkStatus.Closed => s

/-- `PlayerState::paused_to_playing` (player.rs lines 653-693): `none`
models the fatal exit from a non-`Paused` variant.  Note that
`reported_nominal_start_time` is set to `None` (line 680). -/

def paused_to_playing : PState → Option PState
  | PState.Paused track_id play_request_id duration_ms stream_position_ms
      suggested_to_preload_next_track is_explicit =>
    some (PState.Playing track_id play_request_id duration_ms
      stream_position_ms none suggested_to_preload_next_track is_explicit)
  | _ => none

/-- `PlayerState::playing_to_paused` (player.rs lines 695-735). -/

def playing_to_paused : PState → Option PState
  | PState.Playing track_id play_request_id duration_ms stream_position_ms _
      suggested_to_preload_next_track is_explicit =>
    some (PState.Paused track_id play_request_id duration_ms
      stream_position_ms suggested_to_preload_next_track is_explicit)
  | _ => none

/-- `PlayerState::playing_to_end_of_track` (player.rs lines 613-651). -/

def playing_to_end_of_track : PState → Option PState
  | PState.Playing track_id play_request_id duration_ms stream_position_ms _ _
      is_explicit =>
    some (PState.EndOfTrack track_id play_request_id
      { duration_ms := duration_ms
        stream_position_ms := stream_position_ms
        is_explicit := is_explicit })
  | _ => none

/-- `PlayerInternal::start_playback` (player.rs lines 1516-1586), given the
current time `now` in milliseconds.  The computation of the normalisation
factor (lines 1525-1534) feeds only the abstracted DSP fields and is
covered by `NormalisationData.get_factor` above. -/

def start_playback (now : ℤ) (s : EngineState) (track_id : ℕ)
    (play_request_id : ℕ) (loaded_track : LoadedTrackData)
    (start_playback : Bool) : EngineState × List Event :=
  let position_ms := loaded_track.stream_position_ms
  if start_playback then
    let s₁ := ensure_sink_running s
    ({ s₁ with
        state := PState.Playing track_id play_request_id
          loaded_track.duration_ms loaded_track.stream_position_ms
          (some (now - (position_ms : ℤ))) false loaded_track.is_explicit },
      [Event.Playing play_request_id track_id position_ms
        loaded_track.duration_ms])
  else
    let s₁ := ensure_sink_stopped s false
    ({ s₁ with
        state := PState.Paused track_id play_request_id
          loaded_track.duration_ms loaded_track.stream_position_ms false
          loaded_track.is_explicit },
      [Event.Paused play_request_id track_id position_ms
        loaded_track.duration_ms])

/-- The event emitted by the initial `match` of
`PlayerInternal::handle_command_load` (player.rs lines 1599-1631):
`Changed` whenever the previous state holds a track, `Started` from
`Stopped`; `none` models the fatal exit from `Invalid`. -/

def loadCommandEvent (state : PState) (track_id : ℕ) (play_request_id : ℕ)
    (position_ms : ℕ) : Option Event :=
  match state with
  | PState.Playing old_track_id _ _ _ _ _ _ =>
    some (Event.Changed old_track_id track_id)
  | PState.Paused old_track_id _ _ _ _ _ =>
    some (Event.Changed old_track_id track_id)
  | PState.EndOfTrack old_track_id _ _ =>
    some (Event.Changed old_track_id track_id)
  | PState.Loading old_track_id _ _ =>
    some (Event.Changed old_track_id track_id)
  | PState.Stopped =>
    some (Event.Started play_request_id track_id position_ms)
  | PState.Invalid => none

/-- The seek-to-`position_ms` adjustment shared by the fast paths of
`handle_command_load` (player.rs lines 1652-1662, 1691-1701, 1767-1777):
when the requested position differs from the track's position, the decoder
is sought; `seek_ok` tells whether that blocking seek succeeded. -/

def adjustPosition (loaded_track : LoadedTrackData) (position_ms : ℕ)
    (seek_ok : Bool) : LoadedTrackData :=
  if position_ms ≠ loaded_track.stream_position_ms then
    if seek_ok then { loaded_track with stream_position_ms := position_ms }
    else loaded_track
  else loaded_track

/-- The slow path of `handle_command_load` (player.rs lines 1787-1829):
stop the sink (temporarily iff `play`), emit `Loading`, reuse a matching
pending preload loader or create a fresh one (the loader futures are
abstracted, so both cases yield the same `Loading` state here), and clear
the preload slot. -/

def loadSlowPath (s : EngineState) (track_id : ℕ) (play_request_id : ℕ)
    (play : Bool) (position_ms : ℕ) (ev : Event) : EngineState × List Event :=
  let s₁ := ensure_sink_stopped s play
  ({ s₁ with
      preload := PreloadState.None
      state := PState.Loading track_id play_request_id play },
    [ev, Event.Loading play_request_id track_id position_ms])

/-- The preloaded-track fast path of `handle_command_load`
(player.rs lines 1754-1785) followed, when it does not apply, by the slow
path. -/

def loadViaPreloadReady (now : ℤ) (s : EngineState) (track_id : ℕ)
    (play_request_id : ℕ) (play : Bool) (position_ms : ℕ) (seek_ok : Bool)
    (ev : Event) : EngineState × List Event :=
  match s.preload with
  | PreloadState.Ready preload_track_id loaded_track =>
    if track_id = preload_track_id then
      let loaded_track := adjustPosition loaded_track position_ms seek_ok
      let s₁ := { s with preload := PreloadState.None }
      let r := start_playback now s₁ track_id play_request_id loaded_track play
      (r.1, ev :: r.2)
    else
      loadSlowPath s track_id play_request_id play position_ms ev
  | _ =>
    loadSlowPath s track_id play_request_id play position_ms ev

/-- The body of `PlayerInternal::handle_command_load` after the gapless
sink adjustment (player.rs lines 1598-1830).  `seek_ok` abstracts the
success of the blocking `decoder.seek` calls of the fast paths; `none`
models the fatal exits. -/

def handle_command_load_core (now : ℤ) (s : EngineState) (track_id : ℕ)
    (play_request_id : ℕ) (play : Bool) (position_ms : ℕ) (seek_ok : Bool) :
    Option (EngineState × List Event) :=
  match loadCommandEvent s.state track_id play_request_id position_ms with
  | none => none
  | some ev =>
    match s.state with
    | PState.EndOfTrack previous_track_id _ loaded_track =>
      if previous_track_id = track_id then
        let loaded_track := adjustPosition loaded_track position_ms seek_ok
        let s₁ := { s with state := PState.Invalid, preload := PreloadState.None }
        let r := start_playback now s₁ track_id play_request_id loaded_track play
        some (r.1, ev :: r.2)
      else
        some (loadViaPreloadReady now s track_id play_request_id play
          position_ms seek_ok ev)
    | PState.Playing current_track_id _ duration_ms stream_position_ms _ _
        is_explicit =>
      if current_track_id = track_id then
        let loaded_track := adjustPosition
          { duration_ms := duration_ms
            stream_position_ms := stream_position_ms
            is_explicit := is_explicit } position_ms seek_ok
        let s₁ := { s with state := PState.Invalid, preload := PreloadState.None }
        let r := start_playback now s₁ track_id play_request_id loaded_track play
        some (r.1, ev :: r.2)
      else
        some (loadViaPreloadReady now s track_id play_request_id play
          position_ms seek_ok ev)
    | PState.Paused current_track_id _ duration_ms stream_position_ms _
        is_explicit =>
      if current_track_id = track_id then
        let loaded_track := adjustPosition
          { duration_ms := duration_ms
            stream_position_ms := stream_position_ms
            is_explicit := is_explicit } position_ms seek_ok
        let s₁ := { s with state := PState.Invalid, preload := PreloadState.None }
        let r := start_playback now s₁ track_id play_request_id loaded_track play
        some (r.1, ev :: r.2)
      else
        some (loadViaPreloadReady now s track_id play_request_id play
          position_ms seek_ok ev)
    | _ =>
      some (loadViaPreloadReady now s track_id play_request_id play
        position_ms seek_ok ev)

/-- `PlayerInternal::handle_command_load` (player.rs lines 1588-1830): the
gapless sink adjustment (lines 1595-1597) followed by the body above. -/

def handle_command_load (config : PlayerConfig) (now : ℤ) (s : EngineState)
    (track_id : ℕ) (play_request_id : ℕ) (play : Bool) (position_ms : ℕ)
    (seek_ok : Bool) : Option (EngineState × List Event) :=
  handle_command_load_core now
    (if ¬ config.gapless then ensure_sink_stopped s play else s)
    track_id play_request_id play position_ms seek_ok

/-- `PlayerInternal::handle_command_preload` (player.rs lines 1832-1881). -/

def handle_command_preload (s : EngineState) (track_id : ℕ) : EngineState :=
  let r :=
    match s.preload with
    | PreloadState.Loading currently_loading =>
      if currently_loading = track_id then (false, s)
      else (true, { s with preload := PreloadState.None })
    | PreloadState.Ready currently_loading _ =>
      if currently_loading = track_id then (false, s)
      else (true, { s with preload := PreloadState.None })
    | PreloadState.None => (true, s)
  let preload_track :=
    match s.state with
    | PState.Playing current_track_id _ _ _ _ _ _ =>
      if current_track_id = track_id then false else r.1
    | PState.Paused current_track_id _ _ _ _ _ =>
      if current_track_id = track_id then false else r.1
    | PState.EndOfTrack current_track_id _ _ =>
      if current_track_id = track_id then false else r.1
    | _ => r.1
  if preload_track then { r.2 with preload := PreloadState.Loading track_id }
  else r.2

/-- `PlayerInternal::handle_play` (player.rs lines 1321-1341): from `Paused`
apply `paused_to_playing`, emit `Playing` and start the sink; from any other
state only an error is logged. -/

def handle_play (s : EngineState) : EngineState × List Event :=
  match s.state with
  | PState.Paused track_id play_request_id duration_ms stream_position_ms _ _ =>
    let s₁ := { s with state := (paused_to_playing s.state).getD PState.Invalid }
    (ensure_sink_running s₁,
      [Event.Playing play_request_id track_id stream_position_ms duration_ms])
  | _ => (s, [])

/-- `PlayerInternal::handle_pause` (player.rs lines 1343-1364). -/

def handle_pause (s : EngineState) : EngineState × List Event :=
  match s.state with
  | PState.Playing track_id play_request_id duration_ms stream_position_ms _ _ _ =>
    let s₁ := { s with state := (playing_to_paused s.state).getD PState.Invalid }
    (ensure_sink_stopped s₁ false,
      [Event.Paused play_request_id track_id stream_position_ms duration_ms])
  | _ => (s, [])

/-- `PlayerInternal::handle_player_stop` (player.rs lines 1284-1319). -/

def handle_player_stop (s : EngineState) : Option (EngineState × List Event) :=
  match s.state with
  | PState.Playing track_id play_request_id _ _ _ _ _ =>
    let s₁ := ensure_sink_stopped s false
    some ({ s₁ with state := PState.Stopped },
      [Event.Stopped play_request_id track_id])
  | PState.Paused track_id play_request_id _ _ _ _ =>
    let s₁ := ensure_sink_stopped s false
    some ({ s₁ with state := PState.Stopped },
      [Event.Stopped play_request_id track_id])
  | PState.EndOfTrack track_id play_request_id _ =>
    let s₁ := ensure_sink_stopped s false
    some ({ s₁ with state := PState.Stopped },
      [Event.Stopped play_request_id track_id])
  | PState.Loading track_id play_request_id _ =>
    let s₁ := ensure_sink_stopped s false
    some ({ s₁ with state := PState.Stopped },
      [Event.Stopped play_request_id track_id])
  | PState.Stopped => some (s, [])
  | PState.Invalid => none

/-- `PlayerInternal::handle_command_seek` (player.rs lines 1883-1949).  The
stream-mode switches and prefetching act on the abstracted controller;
`seek_ok` abstracts the success of `decoder.seek`.  Whether or not the seek
succeeded, a `Playing` state gets `reported_nominal_start_time` set to
`now - position_ms` and a `Playing` event with the requested position is
emitted (lines 1916-1932); a `Paused` state emits `Paused` (lines
1933-1946). -/

def handle_command_seek (now : ℤ) (s : EngineState) (position_ms : ℕ)
    (seek_ok : Bool) : EngineState × List Event :=
  let s₁ :=
    match s.state with
    | PState.Playing track_id play_request_id duration_ms _ rnst sugg expl =>
      if seek_ok then
        { s with
            state := PState.Playing track_id play_request_id duration_ms
              position_ms rnst sugg expl }
      else s
    | PState.Paused track_id play_request_id duration_ms _ sugg expl =>
      if seek_ok then
        { s with
            state := PState.Paused track_id play_request_id duration_ms
              position_ms sugg expl }
      else s
    | _ => s
  match s₁.state with
  | PState.Playing track_id play_request_id duration_ms pos _ sugg expl =>
    ({ s₁ with
        state := PState.Playing track_id play_request_id duration_ms pos
          (some (now - (position_ms : ℤ))) sugg expl },
      [Event.Playing play_request_id track_id position_ms duration_ms])
  | PState.Paused track_id play_request_id duration_ms _ _ _ =>
    (s₁, [Event.Paused play_request_id track_id position_ms duration_ms])
  | _ => (s₁, [])

/-- `PlayerCommand` (player.rs lines 88-107).  `AddEventSender`,
`SetSinkEventCallback` and `SetAutoNormaliseAsAlbum` only mutate the
abstracted event-sender list, sink callback and normalisation-resolution
flag and emit no events, so they are omitted. -/

inductive Command where
  | Load (track_id : ℕ) (play_request_id : ℕ) (play : Bool)
      (position_ms : ℕ) (seek_ok : Bool)
  | Preload (track_id : ℕ)
  | Play
  | Pause
  | Stop
  | Seek (position_ms : ℕ) (seek_ok : Bool)
  | EmitVolumeSetEvent (volume : ℕ)
  | SkipExplicitContent
deriving DecidableEq

/-- `PlayerInternal::handle_command` (player.rs lines 1951-2009). -/

def handle_command (config : PlayerConfig) (now : ℤ) (s : EngineState) :
    Command → Option (EngineState × List Event)
  | Command.Load track_id play_request_id play position_ms seek_ok =>
    handle_command_load config now s track_id play_request_id play
      position_ms seek_ok
  | Command.Preload track_id => some (handle_command_preload s track_id, [])
  | Command.Seek position_ms seek_ok =>
    some (handle_command_seek now s position_ms seek_ok)
  | Command.Play => some (handle_play s)
  | Command.Pause => some (handle_pause s)
  | Command.Stop => handle_player_stop s
  | Command.EmitVolumeSetEvent volume => some (s, [Event.VolumeSet volume])
  | Command.SkipExplicitContent =>
    match s.state with
    | PState.Playing track_id play_request_id _ _ _ _ is_explicit =>
      if is_explicit then
        some (s, [Event.EndOfTrack play_request_id track_id])
      else some (s, [])
    | PState.Paused track_id play_request_id _ _ _ is_explicit =>
      if is_explicit then
        some (s, [Event.EndOfTrack play_request_id track_id])
      else some (s, [])
    | _ => some (s, [])

/-- `PRELOAD_NEXT_TRACK_BEFORE_END_DURATION_MS` (player.rs line 39). -/

def preloadNextTrackBeforeEndDurationMs : ℕ := 30000

/-- The outcome of `decoder.next_packet()` together with
`packet.samples()` (player.rs lines 1126-1131). -/

inductive PacketResult where
  | ok (new_stream_position_ms : ℕ) (samples_ok : Bool)
  | okNone
  | err
deriving DecidableEq

/-- One unit of work of the engine's poll loop (player.rs lines 1017-1231):
a command arrival, the resolution of the loading future, the resolution of
the preload future, the pull of one decoder packet while `Playing`, or the
preload-hint check.  Each carries the external data the corresponding
source branch reads. -/

inductive EngineInput where
  | cmd (now : ℤ) (c : Command)
  | loaderResult (now : ℤ) (result : Option LoadedTrackData)
  | preloadResult (result : Option LoadedTrackData)
  | packet (now : ℤ) (result : PacketResult)
  | checkPreload (range_to_end_available : Bool)
deriving DecidableEq

/-- One step of the engine (player.rs lines 1017-1231).  `none` models the
fatal exits.  A loader/preload/packet input arriving while the matching
source branch would not poll (wrong state) leaves the engine unchanged. -/

def step (config : PlayerConfig) (s : EngineState) :
    EngineInput → Option (EngineState × List Event)
  | EngineInput.cmd now c => handle_command config now s c
  | EngineInput.loaderResult now result =>
    match s.state with
    | PState.Loading track_id play_request_id start_pb =>
      match result with
      | some loaded_track =>
        some (start_playback now { s with state := PState.Invalid } track_id
          play_request_id loaded_track start_pb)
      | none => some (s, [Event.Unavailable play_request_id track_id])
    | _ => some (s, [])
  | EngineInput.preloadResult result =>
    match s.preload with
    | PreloadState.Loading track_id =>
      match result with
      | some loaded_track =>
        some ({ s with preload := PreloadState.Ready track_id loaded_track },
          [Event.Preloading track_id])
      | none =>
        let evs :=
          match s.state with
          | PState.Playing _ play_request_id _ _ _ _ _ =>
            [Event.Unavailable play_request_id track_id]
          | PState.Paused _ play_request_id _ _ _ _ =>
            [Event.Unavailable play_request_id track_id]
          | _ => []
        some ({ s with preload := PreloadState.None }, evs)
    | _ => some (s, [])
  | EngineInput.packet now result =>
    match s.state with
    | PState.Playing track_id play_request_id duration_ms stream_position_ms
        reported_nominal_start_time sugg expl =>
      let s₁ := ensure_sink_running s
      match result with
      | PacketResult.ok new_stream_position_ms samples_ok =>
        if config.passthrough = false then
          if samples_ok then
            let notify_about_position :=
              match reported_nominal_start_time with
              | none => true
              | some t => (now - t) - (new_stream_position_ms : ℤ) > 1000
            if notify_about_position then
              some ({ s₁ with
                  state := PState.Playing track_id play_request_id duration_ms
                    stream_position_ms
                    (some (now - (new_stream_position_ms : ℤ))) sugg expl },
                [Event.Playing play_request_id track_id
                  new_stream_position_ms duration_ms])
            else some (s₁, [])
          else some (s₁, [Event.EndOfTrack play_request_id track_id])
        else
          some ({ s₁ with
              state := PState.Playing track_id play_request_id duration_ms
                new_stream_position_ms reported_nominal_start_time sugg expl },
            [])
      | PacketResult.okNone =>
        some ({ s₁ with
            state := (playing_to_end_of_track s₁.state).getD PState.Invalid },
          [Event.EndOfTrack play_request_id track_id])
      | PacketResult.err =>
        some (s₁, [Event.EndOfTrack play_request_id track_id])
    | _ => some (s, [])
  | EngineInput.checkPreload range_to_end_available =>
    match s.state with
    | PState.Playing track_id play_request_id duration_ms stream_position_ms
        rnst sugg expl =>
      if sugg = false ∧
          ((duration_ms : ℤ) - (stream_position_ms : ℤ) <
            (preloadNextTrackBeforeEndDurationMs : ℤ)) ∧
          range_to_end_available = true then
        some ({ s with
            state := PState.Playing track_id play_request_id duration_ms
              stream_position_ms rnst true expl },
          [Event.TimeToPreloadNextTrack play_request_id track_id])
      else some (s, [])
    | PState.Paused track_id play_request_id duration_ms stream_position_ms
        sugg expl =>
      if sugg = false ∧
          ((duration_ms : ℤ) - (stream_position_ms : ℤ) <
            (preloadNextTrackBeforeEndDurationMs : ℤ)) ∧
          range_to_end_available = true then
        some ({ s with
            state := PState.Paused track_id play_request_id duration_ms
              stream_position_ms true expl },
          [Event.TimeToPreloadNextTrack play_request_id track_id])
      else some (s, [])
    | _ => some (s, [])

/-- Running the engine over a list of poll-loop units of work, accumulating
the emitted events. -/

def steps (config : PlayerConfig) :
    EngineState → List EngineInput → Option (EngineState × List Event)
  | s, [] => some (s, [])
  | s, i :: rest =>
    match step config s i with
    | none => none
    | some r =>
      match steps config r.1 rest with
      | none => none
      | some r' => some (r'.1, r.2 ++ r'.2)

/-! ## The JSON-RPC control facade (src/api/src/server.rs, json_result.rs)

JSON values already parsed by `serde_json` are modelled by `Json` below; a
`serde_json` `Number` either holds an exact integer (`int`) or a
non-integral float (`nonInt`), matching the `as_i64`/`as_u64` accessors.
Message and data strings of errors are not modelled; the claims are about
the error codes and the ids. -/

inductive JNum where
  | int (z : ℤ)
  | nonInt
deriving DecidableEq

/-- `serde_json::Number::as_i64`. -/

def JNum.as_i64 : JNum → Option ℤ
  | JNum.int z => if -(2 ^ 63) ≤ z ∧ z < 2 ^ 63 then some z else none
  | JNum.nonInt => none

/-- `serde_json::Number::as_u64`. -/

def JNum.as_u64 : JNum → Option ℤ
  | JNum.int z => if 0 ≤ z ∧ z < 2 ^ 64 then some z else none
  | JNum.nonInt => none

inductive Json where
  | null
  | bool (b : Bool)
  | num (n : JNum)
  | str (s : String)
  | arr (elems : List Json)
  | obj (fields : List (String × Json))

/-- `serde_json::Value` string indexing (`val["id"]`): field of an object,
`Null` for a missing field or a non-object. -/

def Json.index (v : Json) (key : String) : Json :=
  match v with
  | Json.obj fields => (fields.lookup key).getD Json.null
  | _ => Json.null

/-- `JsonErrCode` (json_result.rs lines 27-36). -/

inductive JsonErrCode where
  | Parse
  | InvalidReq
  | MethodNotFound
  | InvalidParam
  | Internal
  | NoStream
  | NoControl
  | PlayerPoison
deriving DecidableEq

/-- The numeric values of `JsonErrCode` (json_result.rs lines 27-36). -/

def JsonErrCode.code : JsonErrCode → ℤ
  | JsonErrCode.Parse => -32700
  | JsonErrCode.InvalidReq => -32600
  | JsonErrCode.MethodNotFound => -32601
  | JsonErrCode.InvalidParam => -32602
  | JsonErrCode.Internal => -32603
  | JsonErrCode.NoStream => -32000
  | JsonErrCode.NoControl => -32001
  | JsonErrCode.PlayerPoison => -32002

/-- `JsonError` (json_result.rs lines 16-24); the constant `message` and the
free-form `data` strings are not modelled. -/

structure JsonError where
  id : Option ℤ
  code : JsonErrCode
deriving DecidableEq

/-- The `JsonError` constructors (json_result.rs lines 48-108), all with
`id: None`. -/

def JsonError.parse : JsonError := { id := none, code := JsonErrCode.Parse }

def JsonError.invalid_request : JsonError :=
  { id := none, code := JsonErrCode.InvalidReq }

def JsonError.method_not_found : JsonError :=
  { id := none, code := JsonErrCode.MethodNotFound }

def JsonError.invalid_param : JsonError :=
  { id := none, code := JsonErrCode.InvalidParam }

def JsonError.internal : JsonError := { id := none, code := JsonErrCode.Internal }

def JsonError.no_control : JsonError :=
  { id := none, code := JsonErrCode.NoControl }

/-- `JsonResponse` (json_result.rs lines 9-14, constructor lines 38-46); the
constant `jsonrpc: 2.0` member is not modelled. -/

structure JsonResponse where
  id : ℤ
  result : Json

/-- Modelled from the spec: `set_id` on a response replaces its `id` member
("Response: `{id: integer, jsonrpc: 2.0, result: any}`"); the method is
called by server.rs line 427 but its defining code is not among the sources
at hand. -/

def JsonResponse.set_id (r : JsonResponse) (id : ℤ) : JsonResponse :=
  { r with id := id }

/-- Modelled from the spec: `set_id` on an error replaces its `id` member
("error `{id: integer|null, ...}`"); called by server.rs line 428. -/

def JsonError.set_id (e : JsonError) (id : Option ℤ) : JsonError :=
  { e with id := id }

/-- `SpircCommand` as sent by `ServerInternal::do_request`
(server.rs lines 441-459). -/

inductive SpircCommand where
  | Play
  | Pause
  | Next
  | Shuffle (b : Bool)
  | SetVolume (volume : ℕ)
deriving DecidableEq

/-- `PlayingState` (server.rs lines 57-62). -/

inductive PlayingState where
  | Playing
  | Paused
  | Stopped
deriving DecidableEq

def PlayingState.toJson : PlayingState → Json
  | PlayingState.Playing => Json.str "Playing"
  | PlayingState.Paused => Json.str "Paused"
  | PlayingState.Stopped => Json.str "Stopped"

/-- The public `PlayerState` mirror (server.rs lines 80-86); the `track`
member is kept as its serialized JSON value. -/

structure PlayerStateMirror where
  track : Option Json
  playing : PlayingState
  volume : ℕ
  shuffle : Bool

/-- `json!(self.player_state.as_ref())` for `getStatus`
(server.rs line 438). -/

def serializeStatus (st : PlayerStateMirror) : Json :=
  Json.obj
    [("track", st.track.getD Json.null),
     ("playing", st.playing.toJson),
     ("volume", Json.num (JNum.int st.volume)),
     ("shuffle", Json.bool st.shuffle)]

/-- `JsonRequest` (server.rs lines 31-37); the `jsonrpc: f32` member only
has to deserialize and carries no information the handlers read. -/

structure JsonRequest where
  id : ℤ
  method : String
  params : Option Json

/-- `serde_json::from_value::<JsonRequest>` (server.rs line 435): an object
with an `id` member deserializable as `i64`, a numeric `jsonrpc` member and
a string `method` member; a `params` member is optional and `null` yields
`None`.  Unknown members are ignored. -/

def deserializeJsonRequest (v : Json) : Option JsonRequest :=
  match v with
  | Json.obj fields =>
    match fields.lookup "id", fields.lookup "jsonrpc",
        fields.lookup "method" with
    | some (Json.num n), some (Json.num _), some (Json.str m) =>
      match n.as_i64 with
      | some z =>
        some
          { id := z
            method := m
            params :=
              match fields.lookup "params" with
              | some Json.null => none
              | p => p }
      | none => none
    | _, _, _ => none
  | _ => none

/-- `ServerInternal::send_command` (server.rs lines 467-479): `has_spirc`
tells whether a remote-command channel is attached; the result carries the
commands pushed into that channel. -/

def send_command (has_spirc : Bool) (command : SpircCommand) :
    Except JsonError (Json × List SpircCommand) :=
  if has_spirc then Except.ok (Json.str "Ok", [command])
  else Except.error JsonError.no_control

/-- `ServerInternal::do_request` (server.rs lines 434-465), returning the
response or error together with the commands sent to the spirc channel.
A failing `from_value` deserialization converts into `JsonError::parse`
via `From<serde_json::Error>` (json_result.rs lines 122-126). -/

def do_request (has_spirc : Bool) (st : PlayerStateMirror) (req : Json) :
    Except JsonError JsonResponse × List SpircCommand :=
  match deserializeJsonRequest req with
  | none => (Except.error JsonError.parse, [])
  | some r =>
    let sendResult (c : SpircCommand) :
        Except JsonError JsonResponse × List SpircCommand :=
      match send_command has_spirc c with
      | Except.ok ok => (Except.ok { id := r.id, result := ok.1 }, ok.2)
      | Except.error e => (Except.error e, [])
    match r.method with
    | "getStatus" => (Except.ok { id := r.id, result := serializeStatus st }, [])
    | "getVolume" =>
      (Except.ok
        { id := r.id
          result := Json.obj [("volume", Json.num (JNum.int st.volume))] }, [])
    | "getPlayState" =>
      (Except.ok
        { id := r.id
          result := Json.obj [("playing", st.playing.toJson)] }, [])
    | "setPlay" => sendResult SpircCommand.Play
    | "setPause" => sendResult SpircCommand.Pause
    | "setNext" => sendResult SpircCommand.Next
    | "setShuffleOn" => sendResult (SpircCommand.Shuffle true)
    | "setShuffleOff" => sendResult (SpircCommand.Shuffle false)
    | "setVolume" =>
      match r.params with
      | some (Json.num v) =>
        match v.as_u64 with
        | some vol => sendResult (SpircCommand.SetVolume (vol.toNat % 2 ^ 16))
        | none => (Except.error JsonError.invalid_param, [])
      | _ => (Except.error JsonError.invalid_param, [])
    | _ => (Except.error JsonError.method_not_found, [])

/-- `ServerInternal::handle_request` (server.rs lines 403-432) on an
already-parsed request value: extract and validate the `id` member, run
`do_request`, and stamp the id onto the outcome. -/

def handle_request (has_spirc : Bool) (st : PlayerStateMirror) (val : Json) :
    Except JsonError JsonResponse × List SpircCommand :=
  match Json.index val "id" with
  | Json.num n =>
    match n.as_i64 with
    | some id =>
      let r := do_request has_spirc st val
      (match r.1 with
        | Except.ok resp => Except.ok (resp.set_id id)
        | Except.error e => Except.error (e.set_id (some id)),
        r.2)
    | none => (Except.error JsonError.invalid_request, [])
  | Json.null => (Except.error JsonError.invalid_request, [])
  | _ => (Except.error JsonError.parse, [])

/-! ## Shared auxiliary definitions for the theorems -/

/-- A dynamic-method configuration with unit threshold, attack and release,
used as concrete input by several witnesses. -/

def cfgDyn : PlayerConfig :=
  { gapless := true
    passthrough := false
    normalisation := true
    normalisation_type := NormalisationType.Track
    normalisation_method := NormalisationMethod.Dynamic
    normalisation_pregain := 0
    normalisation_threshold := 1
    normalisation_attack := 1
    normalisation_release := 1
    normalisation_knee := 1 }

/-- A configuration with normalisation disabled, used as concrete input by
witnesses. -/

def cfgOff : PlayerConfig :=
  { cfgDyn with normalisation := false }

/-- The `reported_nominal_start_time` field of a `Playing` state. -/

def reportedNominalStartTime : PState → Option ℤ
  | PState.Playing _ _ _ _ t _ _ => t
  | _ => none

/-- The track id held by a state, as read by the initial `match` of
`handle_command_load` (`None` for `Stopped` and `Invalid`). -/

def currentTrackId : PState → Option ℕ
  | PState.Playing track_id _ _ _ _ _ _ => some track_id
  | PState.Paused track_id _ _ _ _ _ => some track_id
  | PState.EndOfTrack track_id _ _ => some track_id
  | PState.Loading track_id _ _ => some track_id
  | PState.Stopped => none
  | PState.Invalid => none

/-- Whether an event is a `Started` or a `Changed` event. -/
def isStartedOrChanged : Event → Bool
  | Event.Started _ _ _ => true
  | Event.Changed _ _ => true
  | _ => false

/-- The neutral limiter state of the claim: counters 0, peak 0.0,
factor 1.0, strength 0.0. -/
def limiterNeutral (st : LimiterState) : Prop :=
  st.limiter_attack_counter = 0 ∧ st.limiter_release_counter = 0 ∧
    st.limiter_peak_sample = 0.0 ∧ st.limiter_factor = 1.0 ∧
    st.limiter_strength = 0.0

/-- The C5 invariant: whenever the limiter is inactive its fields are
neutral. -/
def limiterCoherent (st : LimiterState) : Prop :=
  st.limiter_active = false → limiterNeutral st

/-- A concrete engine state paused at 250 ms, used by the C4
counterexample. -/
def sPausedC4 : EngineState :=
  { state := PState.Paused 4 9 100000 250 false false
    preload := PreloadState.None
    sink_status := SinkStatus.Closed }

/-- A concrete engine state playing at 250 ms with no reported nominal
start time, used by the C4 witness. -/
def sPlayingC4 : EngineState :=
  { state := PState.Playing 4 9 100000 250 none false false
    preload := PreloadState.None
    sink_status := SinkStatus.Running }

/-- A concrete engine state playing track 5, used by the C3 counterexample
and witness. -/
def sPlayingC3 : EngineState :=
  { state := PState.Playing 5 1 1000 0 none false false
    preload := PreloadState.None
    sink_status := SinkStatus.Closed }

/-- A concrete engine state loading track 11 under request 3, used by the
C7 witness. -/
def sLoadingC7 : EngineState :=
  { state := PState.Loading 11 3 true
    preload := PreloadState.None
    sink_status := SinkStatus.Closed }

/-- Whether an event is `TimeToPreloadNextTrack` for request `r`. -/
def isTTPNT (r : ℕ) : Event → Bool
  | Event.TimeToPreloadNextTrack play_request_id _ => play_request_id == r
  | _ => false

/-- Whether an event is a `TimeToPreloadNextTrack` event at all. -/
def isTTPNTEvent : Event → Bool
  | Event.TimeToPreloadNextTrack _ _ => true
  | _ => false

/-- The number of `TimeToPreloadNextTrack{r, _}` events in a list. -/
def countTTPNT (r : ℕ) (evs : List Event) : ℕ := evs.countP (isTTPNT r)

/-- Whether an input is a `Load` command with play request id `r`. -/
def isLoadCmd (r : ℕ) : EngineInput → Bool
  | EngineInput.cmd _ (Command.Load _ play_request_id _ _ _) =>
    play_request_id == r
  | _ => false

/-- The number of `Load` commands with play request id `r` in a list of
inputs. -/
def loadCount (r : ℕ) (inputs : List EngineInput) : ℕ :=
  inputs.countP (isLoadCmd r)

/-- The play request id held by a player state. -/
def stateRid : PState → Option ℕ
  | PState.Loading _ play_request_id _ => some play_request_id
  | PState.Playing _ play_request_id _ _ _ _ _ => some play_request_id
  | PState.Paused _ play_request_id _ _ _ _ => some play_request_id
  | PState.EndOfTrack _ play_request_id _ => some play_request_id
  | _ => none

/-- A state from which a `TimeToPreloadNextTrack{r, _}` may still be
emitted for request `r`: `Loading` under `r`, or Playing/Paused under `r`
with the suggested flag still clear. -/
def armed (r : ℕ) : PState → Bool
  | PState.Loading _ play_request_id _ => play_request_id == r
  | PState.Playing _ play_request_id _ _ _ sugg _ =>
    play_request_id == r && !sugg
  | PState.Paused _ play_request_id _ _ sugg _ =>
    play_request_id == r && !sugg
  | _ => false

/-- The inductive invariant for the at-most-once property of
`TimeToPreloadNextTrack`: `c` is the number of such events already emitted
for request `r`, and the remaining inputs may contain at most one `Load`
for `r` unless `r` is already spent or held by the state. -/
def preloadOnceInv (r c : ℕ) (s : EngineState) (rest : List EngineInput) : Prop :=
  c ≤ 1 ∧ (armed r s.state = true → c = 0) ∧
  loadCount r rest + (if 1 ≤ c ∨ stateRid s.state = some r then 1 else 0) ≤ 1

def inputsC6 : List EngineInput :=
  [EngineInput.cmd 0 (Command.Load 1 1 true 0 true),
   EngineInput.loaderResult 0
     (some { duration_ms := 10000, stream_position_ms := 0, is_explicit := false }),
   EngineInput.checkPreload true,
   EngineInput.checkPreload true]

def outC6 : EngineState × List Event :=
  ({ state := PState.Playing 1 1 10000 0 (some 0) true false
     preload := PreloadState.None
     sink_status := SinkStatus.Running },
   [Event.Started 1 1 0, Event.Loading 1 1 0, Event.Playing 1 1 0 10000,
    Event.TimeToPreloadNextTrack 1 1])

def sPlayingC6 : EngineState :=
  { state := PState.Playing 1 1 10000 0 (some 0) false false
    preload := PreloadState.None
    sink_status := SinkStatus.Running }

def sPlayingC6' : EngineState :=
  { state := PState.Playing 1 1 10000 0 (some 0) true false
    preload := PreloadState.None
    sink_status := SinkStatus.Running }

/-- A concrete public player-state mirror. -/
def psMirror : PlayerStateMirror :=
  { track := none, playing := PlayingState.Stopped, volume := 0,
    shuffle := false }

/-- The numeric error code of a request outcome (`none` for a success). -/
def resultCode : Except JsonError JsonResponse × List SpircCommand → Option ℤ
  | (Except.error e, _) => some e.code.code
  | (Except.ok _, _) => none

/-- The method names recognised by `do_request` (server.rs lines
437-446). -/
def knownMethods : List String :=
  ["getStatus", "getVolume", "getPlayState", "setPlay", "setPause", "setNext",
   "setShuffleOn", "setShuffleOff", "setVolume"]

@[simp] lemma ensure_sink_running_state (s : EngineState) :
    (ensure_sink_running s).state = s.state := by
  unfold ensure_sink_running; split_ifs <;> rfl

@[simp] lemma ensure_sink_running_preload (s : EngineState) :
    (ensure_sink_running s).preload = s.preload := by
  unfold ensure_sink_running; split_ifs <;> rfl

@[simp] lemma ensure_sink_stopped_state (s : EngineState) (b : Bool) :
    (ensure_sink_stopped s b).state = s.state := by
  rcases s with ⟨st, pl, sk⟩
  cases sk <;> cases b <;> rfl

@[simp] lemma ensure_sink_stopped_preload (s : EngineState) (b : Bool) :
    (ensure_sink_stopped s b).preload = s.preload := by
  rcases s with ⟨st, pl, sk⟩
  cases sk <;> cases b <;> rfl

lemma start_playback_snd (now : ℤ) (s : EngineState) (t r : ℕ)
    (lt : LoadedTrackData) (play : Bool) :
    (start_playback now s t r lt play).2 =
      [if play then Event.Playing r t lt.stream_position_ms lt.duration_ms
       else Event.Paused r t lt.stream_position_ms lt.duration_ms] := by
  cases play <;> rfl

lemma start_playback_state (now : ℤ) (s : EngineState) (t r : ℕ)
    (lt : LoadedTrackData) (play : Bool) :
    (start_playback now s t r lt play).1.state =
      if play then
        PState.Playing t r lt.duration_ms lt.stream_position_ms
          (some (now - (lt.stream_position_ms : ℤ))) false lt.is_explicit
      else
        PState.Paused t r lt.duration_ms lt.stream_position_ms false
          lt.is_explicit := by
  cases play <;> simp [start_playback]

/-- Every successful run of the load-command body emits the event of the
initial `match` first, followed only by events that are neither `Started`
nor `Changed`. -/
lemma load_core_events_shape (now : ℤ) (s : EngineState)
    (track_id play_request_id : ℕ) (play : Bool) (position_ms : ℕ)
    (seek_ok : Bool) (s' : EngineState) (evs : List Event)
    (h : handle_command_load_core now s track_id play_request_id play
        position_ms seek_ok = some (s', evs)) :
    ∃ ev tl,
      loadCommandEvent s.state track_id play_request_id position_ms = some ev ∧
      evs = ev :: tl ∧ tl.all (fun e => !isStartedOrChanged e) = true := by
  rcases s with ⟨st, pl, sk⟩
  cases st
  case Invalid => simp [handle_command_load_core, loadCommandEvent] at h
  all_goals
    cases pl <;>
      simp only [handle_command_load_core, loadCommandEvent, loadViaPreloadReady,
        loadSlowPath] at h <;>
      (try split_ifs at h) <;>
      simp only [Option.some.injEq, Prod.mk.injEq] at h <;>
      obtain ⟨-, hevs⟩ := h <;>
      subst hevs <;>
      exact ⟨_, _, rfl, rfl, by
        cases play <;> simp [start_playback_snd, isStartedOrChanged]⟩

/-! ## C2 — `get_factor` -/

/-- C2: for every `PlayerConfig` and `NormalisationData`, `get_factor`
returns 1.0 when normalisation is disabled; otherwise it returns
`10^((gain_db + pregain)/20)` for the selected (album or track) gain,
except that when that factor times the corresponding peak exceeds the
threshold and the method is Basic it returns `threshold / peak`; for the
Dynamic method the factor is returned unchanged even above the
threshold. -/
theorem claimC2_get_factor (config : PlayerConfig) (data : NormalisationData) :
    NormalisationData.get_factor config data = getFactorClaimC2 config data := by
  unfold NormalisationData.get_factor getFactorClaimC2 db_to_ratio dbVoltageRatio
  cases hn : config.normalisation
  · norm_num
  · norm_num
    split_ifs <;> tauto

/-! ## C1 — the attack branch of the limiter -/

/-- C1 as stated is false: in the attack branch the source assigns
`limiter_strength` from the `f64` local cached at line 1410, i.e. from the
attack counter as it was before the re-seed and the increment.  From the
neutral state, one sample of amplitude 2 against threshold 1 (attack 1 s,
10 samples per second) is in the attack branch and increments the counter
to 1, yet the resulting strength is `0/(10·1) = 0`, not the claimed
`1/(10·1)`. -/
theorem claimC1_counterexample :
    |(2 : ℝ) * 1| > cfgDyn.normalisation_threshold ∧
    (limiterUpdate cfgDyn 10 initialLimiterState 2 1).limiter_active = true ∧
    (limiterUpdate cfgDyn 10 initialLimiterState 2 1).limiter_attack_counter = 1 ∧
    (limiterUpdate cfgDyn 10 initialLimiterState 2 1).limiter_strength ≠
      ((limiterUpdate cfgDyn 10 initialLimiterState 2 1).limiter_attack_counter : ℝ) /
        (10 * cfgDyn.normalisation_attack) := by
  have h : limiterUpdate cfgDyn 10 initialLimiterState 2 1 =
      { limiter_active := true
        limiter_attack_counter := 1
        limiter_release_counter := 0
        limiter_peak_sample := 2
        limiter_factor := 1 / 2
        limiter_strength := 0 } := by
    unfold limiterUpdate initialLimiterState cfgDyn
    norm_num [satAddU32, u32MAX]
  rw [h]
  norm_num [cfgDyn]

/-- C1 (amended): for a sample in the attack branch, the limiter is marked
active and the attack counter is incremented by 1 with saturation (after
being re-seeded from release progress when a release was in progress), but
the resulting `limiter_strength` equals the attack counter value read
before the update (before the re-seed and the increment) divided by
(`samples_per_second` × `normalisation_attack`), not the updated
counter. -/
theorem claimC1_attack_step (config : PlayerConfig) (sps : ℝ)
    (st : LimiterState) (sample factor : ℝ)
    (h : |sample * factor| > config.normalisation_threshold) :
    (limiterUpdate config sps st sample factor).limiter_active = true ∧
    (limiterUpdate config sps st sample factor).limiter_attack_counter =
      satAddU32
        (if st.limiter_release_counter > 0 then
          f64AsU32 ((sps * config.normalisation_release -
              (st.limiter_release_counter : ℝ)) /
            (config.normalisation_release / config.normalisation_attack))
        else st.limiter_attack_counter) 1 ∧
    (limiterUpdate config sps st sample factor).limiter_strength =
      (st.limiter_attack_counter : ℝ) / (sps * config.normalisation_attack) := by
  unfold limiterUpdate
  rw [if_pos h]
  split_ifs <;> simp_all <;> split_ifs <;> simp_all

/-- Witness for `claimC1_attack_step` at the concrete input of the
counterexample. -/
theorem claimC1_attack_step_witness :
    |(2 : ℝ) * 1| > cfgDyn.normalisation_threshold ∧
    ((limiterUpdate cfgDyn 10 initialLimiterState 2 1).limiter_active = true ∧
      (limiterUpdate cfgDyn 10 initialLimiterState 2 1).limiter_attack_counter =
        satAddU32
          (if initialLimiterState.limiter_release_counter > 0 then
            f64AsU32 ((10 * cfgDyn.normalisation_release -
                (initialLimiterState.limiter_release_counter : ℝ)) /
              (cfgDyn.normalisation_release / cfgDyn.normalisation_attack))
          else initialLimiterState.limiter_attack_counter) 1 ∧
      (limiterUpdate cfgDyn 10 initialLimiterState 2 1).limiter_strength =
        (initialLimiterState.limiter_attack_counter : ℝ) /
          (10 * cfgDyn.normalisation_attack)) :=
  ⟨by norm_num [cfgDyn],
    claimC1_attack_step cfgDyn 10 initialLimiterState 2 1 (by norm_num [cfgDyn])⟩

/-! ## C5 — the limiter fields are neutral while the limiter is inactive -/

lemma limiterCoherent_initial : limiterCoherent initialLimiterState := by
  intro _
  simp [initialLimiterState, limiterNeutral]

lemma limiterCoherent_update (config : PlayerConfig) (sps : ℝ)
    (st : LimiterState) (sample factor : ℝ) (h : limiterCoherent st) :
    limiterCoherent (limiterUpdate config sps st sample factor) := by
  unfold limiterUpdate
  split_ifs with h₁ h₂ <;>
    simp_all [limiterCoherent, limiterNeutral, resetLimiter] <;>
    split_ifs <;> simp_all

lemma limiterCoherent_processSample (config : PlayerConfig) (sps : ℝ)
    (factor : ℝ) (st : LimiterState) (sample : ℝ) (h : limiterCoherent st) :
    limiterCoherent (processSample config sps factor st sample).1 := by
  unfold processSample
  split_ifs <;> simp_all [limiterCoherent_update]

lemma limiterCoherent_processSamples (config : PlayerConfig) (sps : ℝ)
    (factor : ℝ) (st : LimiterState) (data : List ℝ) (h : limiterCoherent st) :
    limiterCoherent (processSamples config sps factor st data).1 := by
  induction data generalizing st with
  | nil => simpa [processSamples] using h
  | cons s rest ih =>
    simpa [processSamples] using
      ih (processSample config sps factor st s).1
        (limiterCoherent_processSample config sps factor st s h)

lemma limiterCoherent_handle_packet (config : PlayerConfig) (sps : ℝ)
    (audio_filter : Option (List ℝ → List ℝ)) (st : LimiterState)
    (factor : ℝ) (data : List ℝ) (h : limiterCoherent st) :
    limiterCoherent (handle_packet config sps audio_filter st factor data).1 := by
  unfold handle_packet
  split_ifs <;> simp_all [limiterCoherent_processSamples]

/-- C5: the inactive limiter is neutral — initially, after every per-sample
limiter update, and after every packet processed by `handle_packet`. -/
theorem claimC5_limiter_coherence :
    limiterCoherent initialLimiterState ∧
    (∀ (config : PlayerConfig) (sps : ℝ) (st : LimiterState)
        (sample factor : ℝ), limiterCoherent st →
      limiterCoherent (limiterUpdate config sps st sample factor)) ∧
    (∀ (config : PlayerConfig) (sps : ℝ)
        (audio_filter : Option (List ℝ → List ℝ)) (st : LimiterState)
        (factor : ℝ) (data : List ℝ), limiterCoherent st →
      limiterCoherent (handle_packet config sps audio_filter st factor data).1) :=
  ⟨limiterCoherent_initial, limiterCoherent_update, limiterCoherent_handle_packet⟩

/-- Witness for `claimC5_limiter_coherence`: the preserved invariant holds
at the initial limiter state and propagates through a concrete update and a
concrete packet. -/
theorem claimC5_limiter_coherence_witness :
    limiterCoherent initialLimiterState ∧
    limiterCoherent (limiterUpdate cfgDyn 10 initialLimiterState 2 1) ∧
    limiterCoherent
      (handle_packet cfgDyn 10 none initialLimiterState 1 [2, 0]).1 :=
  ⟨claimC5_limiter_coherence.1,
    claimC5_limiter_coherence.2.1 cfgDyn 10 initialLimiterState 2 1
      claimC5_limiter_coherence.1,
    claimC5_limiter_coherence.2.2 cfgDyn 10 none initialLimiterState 1 [2, 0]
      claimC5_limiter_coherence.1⟩

/-! ## C8 — normalisation disabled is the bit-for-bit identity -/

/-- C8: with normalisation disabled and no audio filter installed,
`handle_packet` writes every non-empty samples packet to the sink with each
sample equal to the decoded input sample, and leaves the limiter state
unchanged. -/
theorem claimC8_normalisation_off_identity (config : PlayerConfig)
    (sps : ℝ) (st : LimiterState) (factor : ℝ) (data : List ℝ)
    (hn : config.normalisation = false) (hd : data ≠ []) :
    handle_packet config sps none st factor data = (st, some data) := by
  unfold handle_packet
  rw [if_neg (by simpa using hd)]
  simp [hn]

/-- Witness for `claimC8_normalisation_off_identity` on a concrete
two-sample packet. -/
theorem claimC8_normalisation_off_identity_witness :
    cfgOff.normalisation = false ∧ ([2, 3] : List ℝ) ≠ [] ∧
    handle_packet cfgOff 10 none initialLimiterState 5 [2, 3] =
      (initialLimiterState, some [2, 3]) :=
  ⟨rfl, by simp,
    claimC8_normalisation_off_identity cfgOff 10 initialLimiterState 5 [2, 3]
      rfl (by simp)⟩

/-! ## C4 — `reported_nominal_start_time` on transitions into Playing -/

/-- C4 as stated is false for the resume-from-Paused transition: the `Play`
command goes through `paused_to_playing`, which sets
`reported_nominal_start_time` to `None` (player.rs line 680), not to
`Some(now − stream_position_ms)`; it is only re-established when the next
packet is pulled.  At the concrete paused state (position 250 ms) and any
`now`, the field right after the transition is `None`. -/
theorem claimC4_counterexample :
    (handle_play sPausedC4).1.state = PState.Playing 4 9 100000 250 none false false ∧
    (none : Option ℤ) ≠ some ((5000 : ℤ) - 250) := by
  constructor
  · rfl
  · simp

/-- C4 (amended): `start_playback` with `play = true` (start of playback of
a loaded track) sets `reported_nominal_start_time = Some(now −
stream_position_ms)`; resuming from `Paused` via the `Play` command leaves
it `None`, and it is then re-established as `Some(now − packet position)`
when the next samples packet is pulled (the `None` value forces the
position notification, player.rs lines 1132-1152). -/
theorem claimC4_amended :
    (∀ (now : ℤ) (s : EngineState) (track_id play_request_id : ℕ)
        (loaded_track : LoadedTrackData),
      reportedNominalStartTime
          (start_playback now s track_id play_request_id loaded_track true).1.state =
        some (now - (loaded_track.stream_position_ms : ℤ))) ∧
    (∀ (s : EngineState) (track_id play_request_id duration_ms
        stream_position_ms : ℕ) (sugg expl : Bool),
      s.state = PState.Paused track_id play_request_id duration_ms
          stream_position_ms sugg expl →
      reportedNominalStartTime (handle_play s).1.state = none) ∧
    (∀ (config : PlayerConfig) (now : ℤ) (s : EngineState)
        (track_id play_request_id duration_ms stream_position_ms
          new_stream_position_ms : ℕ) (sugg expl : Bool),
      config.passthrough = false →
      s.state = PState.Playing track_id play_request_id duration_ms
          stream_position_ms none sugg expl →
      (step config s
          (EngineInput.packet now
            (PacketResult.ok new_stream_position_ms true))).map
          (fun r => reportedNominalStartTime r.1.state) =
        some (some (now - (new_stream_position_ms : ℤ)))) := by
  refine ⟨?_, ?_, ?_⟩
  · intro now s track_id play_request_id loaded_track
    cases hs : s.sink_status <;>
      simp [start_playback, ensure_sink_running, hs, reportedNominalStartTime]
  · intro s track_id play_request_id duration_ms stream_position_ms sugg expl h
    cases hs : s.sink_status <;>
      simp [handle_play, h, paused_to_playing, ensure_sink_running, hs,
        reportedNominalStartTime]
  · intro config now s track_id play_request_id duration_ms
      stream_position_ms new_stream_position_ms sugg expl hp h
    cases hs : s.sink_status <;>
      simp [step, h, hp, ensure_sink_running, hs, reportedNominalStartTime]

/-- Witness for `claimC4_amended` at concrete inputs. -/
theorem claimC4_amended_witness :
    (reportedNominalStartTime
        (start_playback 5000 sPausedC4 4 9
          { duration_ms := 100000, stream_position_ms := 250,
            is_explicit := false } true).1.state =
      some ((5000 : ℤ) - (250 : ℕ))) ∧
    (sPausedC4.state = PState.Paused 4 9 100000 250 false false ∧
      reportedNominalStartTime (handle_play sPausedC4).1.state = none) ∧
    (cfgDyn.passthrough = false ∧
      sPlayingC4.state = PState.Playing 4 9 100000 250 none false false ∧
      (step cfgDyn sPlayingC4
          (EngineInput.packet 5000 (PacketResult.ok 300 true))).map
          (fun r => reportedNominalStartTime r.1.state) =
        some (some ((5000 : ℤ) - (300 : ℕ)))) :=
  ⟨claimC4_amended.1 5000 sPausedC4 4 9 _,
    ⟨rfl, claimC4_amended.2.1 sPausedC4 4 9 100000 250 false false rfl⟩,
    ⟨rfl, rfl,
      claimC4_amended.2.2 cfgDyn 5000 sPlayingC4 4 9 100000 250 300 false false
        rfl rfl⟩⟩

/-! ## C3 — Started/Changed events of the Load command -/

/-- C3 as stated is false: the `Changed` event is emitted whenever the
prior state holds a track, with no comparison of the old and new ids
(player.rs lines 1599-1618).  Loading track 5 while already playing track 5
emits `Changed{5, 5}` even though the ids are equal. -/
theorem claimC3_counterexample :
    currentTrackId sPlayingC3.state = some 5 ∧
    (handle_command_load cfgDyn 0 sPlayingC3 5 2 true 0 true).map Prod.snd =
      some [Event.Changed 5 5, Event.Playing 2 5 0 1000] :=
  ⟨rfl, rfl⟩

/-- C3 (amended): for every Load command handled in a non-Invalid state, a
`Started{track_id, play_request_id, position_ms}` event is emitted iff the
prior state is `Stopped`, and a `Changed{old, new}` event is emitted iff
the prior state holds a track `old` (Playing, Paused, EndOfTrack or
Loading) — regardless of whether `old` differs from the requested track
id. -/
theorem claimC3_amended (config : PlayerConfig) (now : ℤ) (s : EngineState)
    (track_id play_request_id : ℕ) (play : Bool) (position_ms : ℕ)
    (seek_ok : Bool) (s' : EngineState) (evs : List Event)
    (h : handle_command_load config now s track_id play_request_id play
        position_ms seek_ok = some (s', evs)) :
    (Event.Started play_request_id track_id position_ms ∈ evs ↔
      s.state = PState.Stopped) ∧
    (∀ old, Event.Changed old track_id ∈ evs ↔
      currentTrackId s.state = some old) := by
  unfold handle_command_load at h
  obtain ⟨ev, tl, hev, hevs, htl⟩ :=
    load_core_events_shape _ _ _ _ _ _ _ _ _ h
  rw [show (if ¬ config.gapless then ensure_sink_stopped s play else s).state
      = s.state by split_ifs <;> simp] at hev
  have hnoS : ∀ (r t p : ℕ), Event.Started r t p ∉ tl := by
    intro r t p hmem
    have := List.all_eq_true.mp htl _ hmem
    simp [isStartedOrChanged] at this
  have hnoC : ∀ (o n : ℕ), Event.Changed o n ∉ tl := by
    intro o n hmem
    have := List.all_eq_true.mp htl _ hmem
    simp [isStartedOrChanged] at this
  subst hevs
  cases hst : s.state <;> rw [hst] at hev <;>
    first
      | (simp only [loadCommandEvent, Option.some.injEq] at hev
         subst hev
         constructor <;> simp [List.mem_cons, currentTrackId, hnoS, hnoC, eq_comm])
      | simp [loadCommandEvent] at hev

/-- Witness for `claimC3_amended`: loading track 7 while playing track 5
emits `Changed{5, 7}` and no `Started`. -/
theorem claimC3_amended_witness :
    handle_command_load cfgDyn 0 sPlayingC3 7 2 true 0 true =
      some ({ state := PState.Loading 7 2 true, preload := PreloadState.None,
              sink_status := SinkStatus.Closed },
        [Event.Changed 5 7, Event.Loading 2 7 0]) ∧
    ((Event.Started 2 7 0 ∈ [Event.Changed 5 7, Event.Loading 2 7 0] ↔
       sPlayingC3.state = PState.Stopped) ∧
     (∀ old, Event.Changed old 7 ∈ [Event.Changed 5 7, Event.Loading 2 7 0] ↔
       currentTrackId sPlayingC3.state = some old)) :=
  ⟨rfl, claimC3_amended cfgDyn 0 sPlayingC3 7 2 true 0 true _ _ rfl⟩

/-! ## C7 — loader error while Loading -/

/-- C7: when the loading future resolves to `Err` while the engine is in
`Loading`, exactly one `Unavailable` event carrying the `Loading` state's
ids is emitted and the engine state (including the `Loading` variant) is
left unchanged (player.rs lines 1062-1072). -/
theorem claimC7_loader_error (config : PlayerConfig) (now : ℤ)
    (s : EngineState) (track_id play_request_id : ℕ) (start_pb : Bool)
    (h : s.state = PState.Loading track_id play_request_id start_pb) :
    step config s (EngineInput.loaderResult now none) =
      some (s, [Event.Unavailable play_request_id track_id]) := by
  simp [step, h]

/-- Witness for `claimC7_loader_error` at a concrete `Loading` state. -/
theorem claimC7_loader_error_witness :
    sLoadingC7.state = PState.Loading 11 3 true ∧
    step cfgDyn sLoadingC7 (EngineInput.loaderResult 0 none) =
      some (sLoadingC7, [Event.Unavailable 3 11]) :=
  ⟨rfl, claimC7_loader_error cfgDyn 0 sLoadingC7 11 3 true rfl⟩

/-! ## C6 — `TimeToPreloadNextTrack` at most once per play request -/

lemma armed_stateRid (r : ℕ) (p : PState) (h : armed r p = true) :
    stateRid p = some r := by
  cases p <;> simp_all [armed, stateRid]

/-- Every successful run of the load-command body leaves a state holding
the command's play request id and emits no `TimeToPreloadNextTrack`. -/
lemma load_core_result (now : ℤ) (s : EngineState)
    (track_id play_request_id : ℕ) (play : Bool) (position_ms : ℕ)
    (seek_ok : Bool) (s' : EngineState) (evs : List Event)
    (h : handle_command_load_core now s track_id play_request_id play
        position_ms seek_ok = some (s', evs)) :
    stateRid s'.state = some play_request_id ∧
      ∀ e ∈ evs, isTTPNTEvent e = false := by
  rcases s with ⟨st, pl, sk⟩
  cases st
  case Invalid => simp [handle_command_load_core, loadCommandEvent] at h
  all_goals
    cases pl <;>
      simp only [handle_command_load_core, loadCommandEvent, loadViaPreloadReady,
        loadSlowPath] at h <;>
      (try split_ifs at h) <;>
      simp only [Option.some.injEq, Prod.mk.injEq] at h <;>
      obtain ⟨hs', hevs⟩ := h <;>
      subst hevs <;> subst hs' <;>
      exact ⟨by cases play <;> simp [start_playback_state, stateRid],
        by cases play <;> simp [start_playback_snd, isTTPNTEvent]⟩

/-- `handle_command_load` leaves a state holding the command's play request
id and emits no `TimeToPreloadNextTrack`. -/
lemma handle_command_load_result (config : PlayerConfig) (now : ℤ)
    (s : EngineState) (track_id play_request_id : ℕ) (play : Bool)
    (position_ms : ℕ) (seek_ok : Bool) (s' : EngineState) (evs : List Event)
    (h : handle_command_load config now s track_id play_request_id play
        position_ms seek_ok = some (s', evs)) :
    stateRid s'.state = some play_request_id ∧
      ∀ e ∈ evs, isTTPNTEvent e = false :=
  load_core_result _ _ _ _ _ _ _ _ _ h

lemma isTTPNT_of_event (r : ℕ) (e : Event) (h : isTTPNTEvent e = false) :
    isTTPNT r e = false := by
  cases e <;> simp_all [isTTPNT, isTTPNTEvent]

lemma countTTPNT_eq_zero (r : ℕ) (evs : List Event)
    (h : ∀ e ∈ evs, isTTPNTEvent e = false) : countTTPNT r evs = 0 := by
  rw [countTTPNT, List.countP_eq_zero]
  intro e he
  simp [isTTPNT_of_event r e (h e he)]

lemma handle_command_preload_state (s : EngineState) (t : ℕ) :
    (handle_command_preload s t).state = s.state := by
  rcases s with ⟨st, pl, sk⟩
  cases st <;> cases pl <;>
    simp [handle_command_preload] <;> split_ifs <;> rfl

lemma loadCount_cons (r : ℕ) (i : EngineInput) (rest : List EngineInput) :
    loadCount r (i :: rest) =
      loadCount r rest + (if isLoadCmd r i then 1 else 0) := by
  simp [loadCount, List.countP_cons]

lemma preloadOnceInv_mono (r c : ℕ) (s s' : EngineState)
    (rest : List EngineInput)
    (hstate : stateRid s'.state = some r → stateRid s.state = some r)
    (harmed : armed r s'.state = true → armed r s.state = true)
    (h1 : c ≤ 1) (h2 : armed r s.state = true → c = 0)
    (h3 : loadCount r rest +
      (if 1 ≤ c ∨ stateRid s.state = some r then 1 else 0) ≤ 1) :
    preloadOnceInv r c s' rest := by
  refine ⟨h1, fun ha => h2 (harmed ha), ?_⟩
  by_cases hG' : 1 ≤ c ∨ stateRid s'.state = some r
  · have hG : 1 ≤ c ∨ stateRid s.state = some r := by
      rcases hG' with h | h
      · exact Or.inl h
      · exact Or.inr (hstate h)
    rw [if_pos hG] at h3
    rw [if_pos hG']
    omega
  · rw [if_neg hG']
    split_ifs at h3 <;> omega

lemma step_preloadOnceInv (config : PlayerConfig) (r c : ℕ) (s : EngineState)
    (i : EngineInput) (rest : List EngineInput) (s' : EngineState)
    (evs : List Event) (hstep : step config s i = some (s', evs))
    (hinv : preloadOnceInv r c s (i :: rest)) :
    preloadOnceInv r (c + countTTPNT r evs) s' rest := by
  obtain ⟨h1, h2, h3⟩ := hinv
  rw [loadCount_cons] at h3
  cases i with
  | cmd now cmd =>
    cases cmd with
    | Load track_id play_request_id play position_ms seek_ok =>
      obtain ⟨hrid, hev⟩ := handle_command_load_result _ _ _ _ _ _ _ _ _ _ hstep
      rw [countTTPNT_eq_zero r evs hev]
      by_cases hr : play_request_id = r
      · have hLC : isLoadCmd r (EngineInput.cmd now
            (Command.Load track_id play_request_id play position_ms seek_ok)) =
            true := by simp [isLoadCmd, hr]
        rw [hLC] at h3
        norm_num at h3
        by_cases hG : 1 ≤ c ∨ stateRid s.state = some r
        · rw [if_pos hG] at h3
          omega
        · rw [if_neg hG] at h3
          push_neg at hG
          refine ⟨h1, fun _ => by omega, ?_⟩
          split_ifs <;> omega
      · have hLC : isLoadCmd r (EngineInput.cmd now
            (Command.Load track_id play_request_id play position_ms seek_ok)) =
            false := by simp [isLoadCmd, hr]
        rw [hLC] at h3
        norm_num at h3
        have hne : stateRid s'.state ≠ some r := by
          rw [hrid]
          simp [hr]
        refine ⟨h1, ?_, ?_⟩
        · intro ha
          exact absurd (armed_stateRid r _ ha) hne
        · have hiff : (1 ≤ c + 0 ∨ stateRid s'.state = some r) ↔ 1 ≤ c := by
            constructor
            · rintro (h | h)
              · omega
              · exact absurd h hne
            · intro h
              exact Or.inl (by omega)
          split_ifs at h3 ⊢ <;> simp_all
    | Preload track_id =>
      have h3' : loadCount r rest +
          (if 1 ≤ c ∨ stateRid s.state = some r then 1 else 0) ≤ 1 := by
        simpa [isLoadCmd] using h3
      simp only [step, handle_command, Option.some.injEq, Prod.mk.injEq] at hstep
      obtain ⟨hs', hevs⟩ := hstep
      subst hs'
      subst hevs
      simp only [countTTPNT, List.countP_nil, Nat.add_zero]
      refine preloadOnceInv_mono r c s _ rest ?_ ?_ h1 h2 h3' <;>
        rw [handle_command_preload_state] <;> exact id
    | Play =>
      have h3' : loadCount r rest +
          (if 1 ≤ c ∨ stateRid s.state = some r then 1 else 0) ≤ 1 := by
        simpa [isLoadCmd] using h3
      cases hst : s.state <;>
        simp only [step, handle_command, handle_play, hst, paused_to_playing,
          Option.getD_some, Option.some.injEq, Prod.mk.injEq] at hstep <;>
        obtain ⟨hs', hevs⟩ := hstep <;> subst hs' <;> subst hevs <;>
        simp only [countTTPNT, List.countP_cons, List.countP_nil, isTTPNT,
          Nat.add_zero, cond_false, if_false, Bool.false_eq_true] <;>
        refine preloadOnceInv_mono r c s _ rest ?_ ?_ h1 h2 h3' <;>
        simp [stateRid, armed, hst]
    | Pause =>
      have h3' : loadCount r rest +
          (if 1 ≤ c ∨ stateRid s.state = some r then 1 else 0) ≤ 1 := by
        simpa [isLoadCmd] using h3
      cases hst : s.state <;>
        simp only [step, handle_command, handle_pause, hst, playing_to_paused,
          Option.getD_some, Option.some.injEq, Prod.mk.injEq] at hstep <;>
        obtain ⟨hs', hevs⟩ := hstep <;> subst hs' <;> subst hevs <;>
        simp only [countTTPNT, List.countP_cons, List.countP_nil, isTTPNT,
          Nat.add_zero, cond_false, if_false, Bool.false_eq_true] <;>
        refine preloadOnceInv_mono r c s _ rest ?_ ?_ h1 h2 h3' <;>
        simp [stateRid, armed, hst]
    | Stop =>
      have h3' : loadCount r rest +
          (if 1 ≤ c ∨ stateRid s.state = some r then 1 else 0) ≤ 1 := by
        simpa [isLoadCmd] using h3
      cases hst : s.state <;>
        simp only [step, handle_command, handle_player_stop, hst,
          Option.some.injEq, Prod.mk.injEq] at hstep <;>
        obtain ⟨hs', hevs⟩ := hstep <;> subst hs' <;> subst hevs <;>
        simp only [countTTPNT, List.countP_cons, List.countP_nil, isTTPNT,
          Nat.add_zero, cond_false, if_false, Bool.false_eq_true] <;>
        refine preloadOnceInv_mono r c s _ rest ?_ ?_ h1 h2 h3' <;>
        simp [stateRid, armed, hst]
    | Seek position_ms seek_ok =>
      have h3' : loadCount r rest +
          (if 1 ≤ c ∨ stateRid s.state = some r then 1 else 0) ≤ 1 := by
        simpa [isLoadCmd] using h3
      cases hst : s.state <;> cases seek_ok <;>
        simp only [step, handle_command, handle_command_seek, hst,
          Option.some.injEq, Prod.mk.injEq, Bool.false_eq_true, if_false,
          if_true] at hstep <;>
        obtain ⟨hs', hevs⟩ := hstep <;> subst hs' <;> subst hevs <;>
        simp only [countTTPNT, List.countP_cons, List.countP_nil, isTTPNT,
          Nat.add_zero, cond_false, if_false, Bool.false_eq_true] <;>
        refine preloadOnceInv_mono r c s _ rest ?_ ?_ h1 h2 h3' <;>
        simp [stateRid, armed, hst]
    | EmitVolumeSetEvent volume =>
      have h3' : loadCount r rest +
          (if 1 ≤ c ∨ stateRid s.state = some r then 1 else 0) ≤ 1 := by
        simpa [isLoadCmd] using h3
      simp only [step, handle_command, Option.some.injEq, Prod.mk.injEq] at hstep
      obtain ⟨hs', hevs⟩ := hstep
      subst hs'
      subst hevs
      simp only [countTTPNT, List.countP_cons, List.countP_nil, isTTPNT,
        Nat.add_zero, cond_false, if_false, Bool.false_eq_true]
      exact ⟨h1, h2, h3'⟩
    | SkipExplicitContent =>
      have h3' : loadCount r rest +
          (if 1 ≤ c ∨ stateRid s.state = some r then 1 else 0) ≤ 1 := by
        simpa [isLoadCmd] using h3
      cases hst : s.state <;>
        simp only [step, handle_command, hst, Option.some.injEq,
          Prod.mk.injEq] at hstep <;>
        (try split_ifs at hstep) <;>
        (try simp only [Option.some.injEq, Prod.mk.injEq] at hstep) <;>
        obtain ⟨hs', hevs⟩ := hstep <;> subst hs' <;> subst hevs <;>
        simp only [countTTPNT, List.countP_cons, List.countP_nil, isTTPNT,
          Nat.add_zero, cond_false, if_false, Bool.false_eq_true] <;>
        exact ⟨h1, h2, h3'⟩
  | loaderResult now result =>
    have h3' : loadCount r rest +
        (if 1 ≤ c ∨ stateRid s.state = some r then 1 else 0) ≤ 1 := by
      simpa [isLoadCmd] using h3
    cases hst : s.state with
    | Loading track_id play_request_id start_pb =>
      cases result with
      | some loaded_track =>
        simp only [step, hst, Option.some.injEq] at hstep
        have hs' : s' = (start_playback now { s with state := PState.Invalid }
            track_id play_request_id loaded_track start_pb).1 := by
          rw [hstep]
        have hevs : evs = (start_playback now { s with state := PState.Invalid }
            track_id play_request_id loaded_track start_pb).2 := by
          rw [hstep]
        subst hs'
        subst hevs
        have hcnt : countTTPNT r (start_playback now
            { s with state := PState.Invalid } track_id play_request_id
            loaded_track start_pb).2 = 0 := by
          rw [start_playback_snd]
          cases start_pb <;> simp [countTTPNT, isTTPNT]
        rw [hcnt]
        refine preloadOnceInv_mono r c s _ rest ?_ ?_ h1 h2 h3' <;>
          rw [start_playback_state] <;>
          cases start_pb <;> simp [stateRid, armed, hst]
      | none =>
        simp only [step, hst, Option.some.injEq, Prod.mk.injEq] at hstep
        obtain ⟨hs', hevs⟩ := hstep
        subst hs'
        subst hevs
        simp only [countTTPNT, List.countP_cons, List.countP_nil, isTTPNT,
          Nat.add_zero, cond_false, if_false, Bool.false_eq_true]
        exact ⟨h1, h2, h3'⟩
    | Stopped =>
      cases result <;>
        simp only [step, hst, Option.some.injEq, Prod.mk.injEq] at hstep <;>
        obtain ⟨hs', hevs⟩ := hstep <;> subst hs' <;> subst hevs <;>
        simp only [countTTPNT, List.countP_nil, Nat.add_zero] <;>
        exact ⟨h1, h2, h3'⟩
    | Paused track_id play_request_id duration_ms stream_position_ms sugg expl =>
      cases result <;>
        simp only [step, hst, Option.some.injEq, Prod.mk.injEq] at hstep <;>
        obtain ⟨hs', hevs⟩ := hstep <;> subst hs' <;> subst hevs <;>
        simp only [countTTPNT, List.countP_nil, Nat.add_zero] <;>
        exact ⟨h1, h2, h3'⟩
    | Playing track_id play_request_id duration_ms stream_position_ms rnst sugg expl =>
      cases result <;>
        simp only [step, hst, Option.some.injEq, Prod.mk.injEq] at hstep <;>
        obtain ⟨hs', hevs⟩ := hstep <;> subst hs' <;> subst hevs <;>
        simp only [countTTPNT, List.countP_nil, Nat.add_zero] <;>
        exact ⟨h1, h2, h3'⟩
    | EndOfTrack track_id play_request_id loaded_track =>
      cases result <;>
        simp only [step, hst, Option.some.injEq, Prod.mk.injEq] at hstep <;>
        obtain ⟨hs', hevs⟩ := hstep <;> subst hs' <;> subst hevs <;>
        simp only [countTTPNT, List.countP_nil, Nat.add_zero] <;>
        exact ⟨h1, h2, h3'⟩
    | Invalid =>
      cases result <;>
        simp only [step, hst, Option.some.injEq, Prod.mk.injEq] at hstep <;>
        obtain ⟨hs', hevs⟩ := hstep <;> subst hs' <;> subst hevs <;>
        simp only [countTTPNT, List.countP_nil, Nat.add_zero] <;>
        exact ⟨h1, h2, h3'⟩
  | preloadResult result =>
    have h3' : loadCount r rest +
        (if 1 ≤ c ∨ stateRid s.state = some r then 1 else 0) ≤ 1 := by
      simpa [isLoadCmd] using h3
    cases hpl : s.preload with
    | Loading track_id =>
      cases result with
      | some loaded_track =>
        simp only [step, hpl, Option.some.injEq, Prod.mk.injEq] at hstep
        obtain ⟨hs', hevs⟩ := hstep
        subst hs'
        subst hevs
        simp only [countTTPNT, List.countP_cons, List.countP_nil, isTTPNT,
          Nat.add_zero, cond_false, if_false, Bool.false_eq_true]
        refine preloadOnceInv_mono r c s _ rest (fun h => ?_) (fun h => ?_)
          h1 h2 h3' <;> simpa using h
      | none =>
        cases hst : s.state <;>
          simp only [step, hpl, hst, Option.some.injEq, Prod.mk.injEq] at hstep <;>
          obtain ⟨hs', hevs⟩ := hstep <;> subst hs' <;> subst hevs <;>
          simp only [countTTPNT, List.countP_cons, List.countP_nil, isTTPNT,
            Nat.add_zero, cond_false, if_false, Bool.false_eq_true] <;>
          refine preloadOnceInv_mono r c s _ rest (fun h => ?_) (fun h => ?_)
            h1 h2 h3' <;> simpa [hst] using h
    | None =>
      simp only [step, hpl, Option.some.injEq, Prod.mk.injEq] at hstep
      obtain ⟨hs', hevs⟩ := hstep
      subst hs'
      subst hevs
      simp only [countTTPNT, List.countP_nil, Nat.add_zero]
      exact ⟨h1, h2, h3'⟩
    | Ready track_id loaded_track =>
      simp only [step, hpl, Option.some.injEq, Prod.mk.injEq] at hstep
      obtain ⟨hs', hevs⟩ := hstep
      subst hs'
      subst hevs
      simp only [countTTPNT, List.countP_nil, Nat.add_zero]
      exact ⟨h1, h2, h3'⟩
  | packet now result =>
    have h3' : loadCount r rest +
        (if 1 ≤ c ∨ stateRid s.state = some r then 1 else 0) ≤ 1 := by
      simpa [isLoadCmd] using h3
    cases hst : s.state with
    | Playing track_id play_request_id duration_ms stream_position_ms rnst sugg expl =>
      cases result with
      | ok new_stream_position_ms samples_ok =>
        cases hpt : config.passthrough <;> cases samples_ok <;>
          simp only [step, hst, hpt, Option.some.injEq, Prod.mk.injEq,
            Bool.false_eq_true, if_false, if_true] at hstep <;>
          (try cases rnst) <;>
          (try split_ifs at hstep) <;>
          (try simp only [Option.some.injEq, Prod.mk.injEq] at hstep) <;>
          obtain ⟨hs', hevs⟩ := hstep <;> subst hs' <;> subst hevs <;>
          simp only [countTTPNT, List.countP_cons, List.countP_nil, isTTPNT,
            Nat.add_zero, cond_false, if_false, Bool.false_eq_true] <;>
          refine preloadOnceInv_mono r c s _ rest ?_ ?_ h1 h2 h3' <;>
          simp [stateRid, armed, hst]
      | okNone =>
        simp only [step, hst, playing_to_end_of_track, Option.getD_some,
          Option.some.injEq, Prod.mk.injEq] at hstep
        obtain ⟨hs', hevs⟩ := hstep
        subst hs'
        subst hevs
        simp only [countTTPNT, List.countP_cons, List.countP_nil, isTTPNT,
          Nat.add_zero, cond_false, if_false, Bool.false_eq_true]
        refine preloadOnceInv_mono r c s _ rest ?_ ?_ h1 h2 h3' <;>
          simp [stateRid, armed, hst]
      | err =>
        simp only [step, hst, Option.some.injEq, Prod.mk.injEq] at hstep
        obtain ⟨hs', hevs⟩ := hstep
        subst hs'
        subst hevs
        simp only [countTTPNT, List.countP_cons, List.countP_nil, isTTPNT,
          Nat.add_zero, cond_false, if_false, Bool.false_eq_true]
        refine preloadOnceInv_mono r c s _ rest ?_ ?_ h1 h2 h3' <;>
          simp [stateRid, armed, hst]
    | Stopped =>
      simp only [step, hst, Option.some.injEq, Prod.mk.injEq] at hstep
      obtain ⟨hs', hevs⟩ := hstep
      subst hs'
      subst hevs
      simp only [countTTPNT, List.countP_nil, Nat.add_zero]
      exact ⟨h1, h2, h3'⟩
    | Loading track_id play_request_id start_pb =>
      simp only [step, hst, Option.some.injEq, Prod.mk.injEq] at hstep
      obtain ⟨hs', hevs⟩ := hstep
      subst hs'
      subst hevs
      simp only [countTTPNT, List.countP_nil, Nat.add_zero]
      exact ⟨h1, h2, h3'⟩
    | Paused track_id play_request_id duration_ms stream_position_ms sugg expl =>
      simp only [step, hst, Option.some.injEq, Prod.mk.injEq] at hstep
      obtain ⟨hs', hevs⟩ := hstep
      subst hs'
      subst hevs
      simp only [countTTPNT, List.countP_nil, Nat.add_zero]
      exact ⟨h1, h2, h3'⟩
    | EndOfTrack track_id play_request_id loaded_track =>
      simp only [step, hst, Option.some.injEq, Prod.mk.injEq] at hstep
      obtain ⟨hs', hevs⟩ := hstep
      subst hs'
      subst hevs
      simp only [countTTPNT, List.countP_nil, Nat.add_zero]
      exact ⟨h1, h2, h3'⟩
    | Invalid =>
      simp only [step, hst, Option.some.injEq, Prod.mk.injEq] at hstep
      obtain ⟨hs', hevs⟩ := hstep
      subst hs'
      subst hevs
      simp only [countTTPNT, List.countP_nil, Nat.add_zero]
      exact ⟨h1, h2, h3'⟩
  | checkPreload range_to_end_available =>
    have h3' : loadCount r rest +
        (if 1 ≤ c ∨ stateRid s.state = some r then 1 else 0) ≤ 1 := by
      simpa [isLoadCmd] using h3
    cases hst : s.state with
    | Playing track_id play_request_id duration_ms stream_position_ms rnst sugg expl =>
      simp only [step, hst] at hstep
      split_ifs at hstep with hcond
      · simp only [Option.some.injEq, Prod.mk.injEq] at hstep
        obtain ⟨hs', hevs⟩ := hstep
        subst hs'
        subst hevs
        obtain ⟨hsugg, hwin, havail⟩ := hcond
        by_cases hr : play_request_id = r
        · have hc0 : c = 0 := h2 (by simp [armed, hst, hsugg, hr])
          have hcnt : countTTPNT r
              [Event.TimeToPreloadNextTrack play_request_id track_id] = 1 := by
            simp [countTTPNT, isTTPNT, hr]
          rw [hcnt]
          refine ⟨by omega, ?_, ?_⟩
          · intro ha
            simp [armed] at ha
          · have hsr : stateRid s.state = some r := by
              simp [stateRid, hst, hr]
            rw [if_pos (Or.inr hsr)] at h3'
            rw [if_pos (Or.inl (by omega))]
            omega
        · have hcnt : countTTPNT r
              [Event.TimeToPreloadNextTrack play_request_id track_id] = 0 := by
            simp [countTTPNT, isTTPNT, hr]
          rw [hcnt]
          refine preloadOnceInv_mono r c s _ rest ?_ ?_ h1 h2 h3' <;>
            simp [stateRid, armed, hst, hr]
      · simp only [Option.some.injEq, Prod.mk.injEq] at hstep
        obtain ⟨hs', hevs⟩ := hstep
        subst hs'
        subst hevs
        simp only [countTTPNT, List.countP_nil, Nat.add_zero]
        exact ⟨h1, h2, h3'⟩
    | Paused track_id play_request_id duration_ms stream_position_ms sugg expl =>
      simp only [step, hst] at hstep
      split_ifs at hstep with hcond
      · simp only [Option.some.injEq, Prod.mk.injEq] at hstep
        obtain ⟨hs', hevs⟩ := hstep
        subst hs'
        subst hevs
        obtain ⟨hsugg, hwin, havail⟩ := hcond
        by_cases hr : play_request_id = r
        · have hc0 : c = 0 := h2 (by simp [armed, hst, hsugg, hr])
          have hcnt : countTTPNT r
              [Event.TimeToPreloadNextTrack play_request_id track_id] = 1 := by
            simp [countTTPNT, isTTPNT, hr]
          rw [hcnt]
          refine ⟨by omega, ?_, ?_⟩
          · intro ha
            simp [armed] at ha
          · have hsr : stateRid s.state = some r := by
              simp [stateRid, hst, hr]
            rw [if_pos (Or.inr hsr)] at h3'
            rw [if_pos (Or.inl (by omega))]
            omega
        · have hcnt : countTTPNT r
              [Event.TimeToPreloadNextTrack play_request_id track_id] = 0 := by
            simp [countTTPNT, isTTPNT, hr]
          rw [hcnt]
          refine preloadOnceInv_mono r c s _ rest ?_ ?_ h1 h2 h3' <;>
            simp [stateRid, armed, hst, hr]
      · simp only [Option.some.injEq, Prod.mk.injEq] at hstep
        obtain ⟨hs', hevs⟩ := hstep
        subst hs'
        subst hevs
        simp only [countTTPNT, List.countP_nil, Nat.add_zero]
        exact ⟨h1, h2, h3'⟩
    | Stopped =>
      simp only [step, hst, Option.some.injEq, Prod.mk.injEq] at hstep
      obtain ⟨hs', hevs⟩ := hstep
      subst hs'
      subst hevs
      simp only [countTTPNT, List.countP_nil, Nat.add_zero]
      exact ⟨h1, h2, h3'⟩
    | Loading track_id play_request_id start_pb =>
      simp only [step, hst, Option.some.injEq, Prod.mk.injEq] at hstep
      obtain ⟨hs', hevs⟩ := hstep
      subst hs'
      subst hevs
      simp only [countTTPNT, List.countP_nil, Nat.add_zero]
      exact ⟨h1, h2, h3'⟩
    | EndOfTrack track_id play_request_id loaded_track =>
      simp only [step, hst, Option.some.injEq, Prod.mk.injEq] at hstep
      obtain ⟨hs', hevs⟩ := hstep
      subst hs'
      subst hevs
      simp only [countTTPNT, List.countP_nil, Nat.add_zero]
      exact ⟨h1, h2, h3'⟩
    | Invalid =>
      simp only [step, hst, Option.some.injEq, Prod.mk.injEq] at hstep
      obtain ⟨hs', hevs⟩ := hstep
      subst hs'
      subst hevs
      simp only [countTTPNT, List.countP_nil, Nat.add_zero]
      exact ⟨h1, h2, h3'⟩

lemma steps_preloadOnceInv (config : PlayerConfig) (r : ℕ) :
    ∀ (inputs : List EngineInput) (c : ℕ) (s : EngineState)
      (out : EngineState × List Event),
      preloadOnceInv r c s inputs →
      steps config s inputs = some out →
      c + countTTPNT r out.2 ≤ 1 := by
  intro inputs
  induction inputs with
  | nil =>
    intro c s out hinv hsteps
    simp only [steps, Option.some.injEq] at hsteps
    subst hsteps
    simpa [countTTPNT] using hinv.1
  | cons i rest ih =>
    intro c s out hinv hsteps
    simp only [steps] at hsteps
    cases hstep : step config s i with
    | none =>
      simp only [hstep] at hsteps
      exact Option.noConfusion hsteps
    | some p =>
      simp only [hstep] at hsteps
      cases hrest : steps config p.1 rest with
      | none =>
        simp only [hrest] at hsteps
        exact Option.noConfusion hsteps
      | some q =>
        simp only [hrest, Option.some.injEq] at hsteps
        subst hsteps
        have hinv' := step_preloadOnceInv config r c s i rest p.1 p.2 hstep hinv
        have hq := ih (c + countTTPNT r p.2) p.1 q hinv' hrest
        simp only [countTTPNT, List.countP_append] at hq ⊢
        omega

lemma step_ttpnt_mem (config : PlayerConfig) (s : EngineState)
    (i : EngineInput) (s' : EngineState) (evs : List Event) (r t : ℕ)
    (hstep : step config s i = some (s', evs))
    (hmem : Event.TimeToPreloadNextTrack r t ∈ evs) :
    i = EngineInput.checkPreload true ∧
    ((∃ dur pos rnst expl,
        s.state = PState.Playing t r dur pos rnst false expl ∧
        (dur : ℤ) - (pos : ℤ) < 30000) ∨
     (∃ dur pos expl,
        s.state = PState.Paused t r dur pos false expl ∧
        (dur : ℤ) - (pos : ℤ) < 30000)) := by
  cases i with
  | cmd now cmd =>
    cases cmd with
    | Load track_id play_request_id play position_ms seek_ok =>
      obtain ⟨-, hev⟩ := handle_command_load_result _ _ _ _ _ _ _ _ _ _ hstep
      have := hev _ hmem
      simp [isTTPNTEvent] at this
    | Preload track_id =>
      simp only [step, handle_command, Option.some.injEq, Prod.mk.injEq] at hstep
      obtain ⟨-, hevs⟩ := hstep
      subst hevs
      simp at hmem
    | Play =>
      cases hst : s.state <;>
        simp only [step, handle_command, handle_play, hst, paused_to_playing,
          Option.getD_some, Option.some.injEq, Prod.mk.injEq] at hstep <;>
        obtain ⟨-, hevs⟩ := hstep <;> subst hevs <;> simp at hmem
    | Pause =>
      cases hst : s.state <;>
        simp only [step, handle_command, handle_pause, hst, playing_to_paused,
          Option.getD_some, Option.some.injEq, Prod.mk.injEq] at hstep <;>
        obtain ⟨-, hevs⟩ := hstep <;> subst hevs <;> simp at hmem
    | Stop =>
      cases hst : s.state <;>
        simp only [step, handle_command, handle_player_stop, hst,
          Option.some.injEq, Prod.mk.injEq] at hstep <;>
        obtain ⟨-, hevs⟩ := hstep <;> subst hevs <;> simp at hmem
    | Seek position_ms seek_ok =>
      cases hst : s.state <;> cases seek_ok <;>
        simp only [step, handle_command, handle_command_seek, hst,
          Option.some.injEq, Prod.mk.injEq, Bool.false_eq_true, if_false,
          if_true] at hstep <;>
        obtain ⟨-, hevs⟩ := hstep <;> subst hevs <;> simp at hmem
    | EmitVolumeSetEvent volume =>
      simp only [step, handle_command, Option.some.injEq, Prod.mk.injEq] at hstep
      obtain ⟨-, hevs⟩ := hstep
      subst hevs
      simp at hmem
    | SkipExplicitContent =>
      cases hst : s.state <;>
        simp only [step, handle_command, hst, Option.some.injEq,
          Prod.mk.injEq] at hstep <;>
        (try split_ifs at hstep) <;>
        (try simp only [Option.some.injEq, Prod.mk.injEq] at hstep) <;>
        obtain ⟨-, hevs⟩ := hstep <;> subst hevs <;> simp at hmem
  | loaderResult now result =>
    cases hst : s.state with
    | Loading track_id play_request_id start_pb =>
      cases result with
      | some loaded_track =>
        simp only [step, hst, Option.some.injEq] at hstep
        have hevs : evs = (start_playback now { s with state := PState.Invalid }
            track_id play_request_id loaded_track start_pb).2 := by
          rw [hstep]
        subst hevs
        rw [start_playback_snd] at hmem
        cases start_pb <;> simp at hmem
      | none =>
        simp only [step, hst, Option.some.injEq, Prod.mk.injEq] at hstep
        obtain ⟨-, hevs⟩ := hstep
        subst hevs
        simp at hmem
    | Stopped =>
      cases result <;>
        simp only [step, hst, Option.some.injEq, Prod.mk.injEq] at hstep <;>
        obtain ⟨-, hevs⟩ := hstep <;> subst hevs <;> simp at hmem
    | Paused track_id play_request_id duration_ms stream_position_ms sugg expl =>
      cases result <;>
        simp only [step, hst, Option.some.injEq, Prod.mk.injEq] at hstep <;>
        obtain ⟨-, hevs⟩ := hstep <;> subst hevs <;> simp at hmem
    | Playing track_id play_request_id duration_ms stream_position_ms rnst sugg expl =>
      cases result <;>
        simp only [step, hst, Option.some.injEq, Prod.mk.injEq] at hstep <;>
        obtain ⟨-, hevs⟩ := hstep <;> subst hevs <;> simp at hmem
    | EndOfTrack track_id play_request_id loaded_track =>
      cases result <;>
        simp only [step, hst, Option.some.injEq, Prod.mk.injEq] at hstep <;>
        obtain ⟨-, hevs⟩ := hstep <;> subst hevs <;> simp at hmem
    | Invalid =>
      cases result <;>
        simp only [step, hst, Option.some.injEq, Prod.mk.injEq] at hstep <;>
        obtain ⟨-, hevs⟩ := hstep <;> subst hevs <;> simp at hmem
  | preloadResult result =>
    cases hpl : s.preload with
    | Loading track_id =>
      cases result with
      | some loaded_track =>
        simp only [step, hpl, Option.some.injEq, Prod.mk.injEq] at hstep
        obtain ⟨-, hevs⟩ := hstep
        subst hevs
        simp at hmem
      | none =>
        cases hst : s.state <;>
          simp only [step, hpl, hst, Option.some.injEq, Prod.mk.injEq] at hstep <;>
          obtain ⟨-, hevs⟩ := hstep <;> subst hevs <;> simp at hmem
    | None =>
      simp only [step, hpl, Option.some.injEq, Prod.mk.injEq] at hstep
      obtain ⟨-, hevs⟩ := hstep
      subst hevs
      simp at hmem
    | Ready track_id loaded_track =>
      simp only [step, hpl, Option.some.injEq, Prod.mk.injEq] at hstep
      obtain ⟨-, hevs⟩ := hstep
      subst hevs
      simp at hmem
  | packet now result =>
    cases hst : s.state with
    | Playing track_id play_request_id duration_ms stream_position_ms rnst sugg expl =>
      cases result with
      | ok new_stream_position_ms samples_ok =>
        cases hpt : config.passthrough <;> cases samples_ok <;>
          simp only [step, hst, hpt, Option.some.injEq, Prod.mk.injEq,
            Bool.false_eq_true, if_false, if_true] at hstep <;>
          (try cases rnst) <;>
          (try split_ifs at hstep) <;>
          (try simp only [Option.some.injEq, Prod.mk.injEq] at hstep) <;>
          obtain ⟨-, hevs⟩ := hstep <;> subst hevs <;> simp at hmem
      | okNone =>
        simp only [step, hst, playing_to_end_of_track, Option.getD_some,
          Option.some.injEq, Prod.mk.injEq] at hstep
        obtain ⟨-, hevs⟩ := hstep
        subst hevs
        simp at hmem
      | err =>
        simp only [step, hst, Option.some.injEq, Prod.mk.injEq] at hstep
        obtain ⟨-, hevs⟩ := hstep
        subst hevs
        simp at hmem
    | Stopped =>
      simp only [step, hst, Option.some.injEq, Prod.mk.injEq] at hstep
      obtain ⟨-, hevs⟩ := hstep
      subst hevs
      simp at hmem
    | Loading track_id play_request_id start_pb =>
      simp only [step, hst, Option.some.injEq, Prod.mk.injEq] at hstep
      obtain ⟨-, hevs⟩ := hstep
      subst hevs
      simp at hmem
    | Paused track_id play_request_id duration_ms stream_position_ms sugg expl =>
      simp only [step, hst, Option.some.injEq, Prod.mk.injEq] at hstep
      obtain ⟨-, hevs⟩ := hstep
      subst hevs
      simp at hmem
    | EndOfTrack track_id play_request_id loaded_track =>
      simp only [step, hst, Option.some.injEq, Prod.mk.injEq] at hstep
      obtain ⟨-, hevs⟩ := hstep
      subst hevs
      simp at hmem
    | Invalid =>
      simp only [step, hst, Option.some.injEq, Prod.mk.injEq] at hstep
      obtain ⟨-, hevs⟩ := hstep
      subst hevs
      simp at hmem
  | checkPreload range_to_end_available =>
    cases hst : s.state with
    | Playing track_id play_request_id duration_ms stream_position_ms rnst sugg expl =>
      simp only [step, hst] at hstep
      split_ifs at hstep with hcond
      · simp only [Option.some.injEq, Prod.mk.injEq] at hstep
        obtain ⟨-, hevs⟩ := hstep
        subst hevs
        simp only [List.mem_singleton, Event.TimeToPreloadNextTrack.injEq] at hmem
        obtain ⟨hr, ht⟩ := hmem
        obtain ⟨hsugg, hwin, havail⟩ := hcond
        subst hr
        subst ht
        subst hsugg
        subst havail
        exact ⟨rfl, Or.inl ⟨duration_ms, stream_position_ms, rnst, expl,
          rfl, by simpa [preloadNextTrackBeforeEndDurationMs] using hwin⟩⟩
      · simp only [Option.some.injEq, Prod.mk.injEq] at hstep
        obtain ⟨-, hevs⟩ := hstep
        subst hevs
        simp at hmem
    | Paused track_id play_request_id duration_ms stream_position_ms sugg expl =>
      simp only [step, hst] at hstep
      split_ifs at hstep with hcond
      · simp only [Option.some.injEq, Prod.mk.injEq] at hstep
        obtain ⟨-, hevs⟩ := hstep
        subst hevs
        simp only [List.mem_singleton, Event.TimeToPreloadNextTrack.injEq] at hmem
        obtain ⟨hr, ht⟩ := hmem
        obtain ⟨hsugg, hwin, havail⟩ := hcond
        subst hr
        subst ht
        subst hsugg
        subst havail
        exact ⟨rfl, Or.inr ⟨duration_ms, stream_position_ms, expl,
          rfl, by simpa [preloadNextTrackBeforeEndDurationMs] using hwin⟩⟩
      · simp only [Option.some.injEq, Prod.mk.injEq] at hstep
        obtain ⟨-, hevs⟩ := hstep
        subst hevs
        simp at hmem
    | Stopped =>
      simp only [step, hst, Option.some.injEq, Prod.mk.injEq] at hstep
      obtain ⟨-, hevs⟩ := hstep
      subst hevs
      simp at hmem
    | Loading track_id play_request_id start_pb =>
      simp only [step, hst, Option.some.injEq, Prod.mk.injEq] at hstep
      obtain ⟨-, hevs⟩ := hstep
      subst hevs
      simp at hmem
    | EndOfTrack track_id play_request_id loaded_track =>
      simp only [step, hst, Option.some.injEq, Prod.mk.injEq] at hstep
      obtain ⟨-, hevs⟩ := hstep
      subst hevs
      simp at hmem
    | Invalid =>
      simp only [step, hst, Option.some.injEq, Prod.mk.injEq] at hstep
      obtain ⟨-, hevs⟩ := hstep
      subst hevs
      simp at hmem

/-- C6: over every run of the engine from its initial state in which each
play request id is carried by at most one `Load` command (the
`play_request_id`s are generated monotonically by the `Player` handle), the
`TimeToPreloadNextTrack` event is emitted at most once per play request id;
and every emission happens in a `Playing` or `Paused` state whose
`duration_ms − stream_position_ms` is below 30000 ms, on a poll iteration
in which the stream controller reports the range to the end available. -/
theorem claimC6_preload_hint :
    (∀ (config : PlayerConfig) (inputs : List EngineInput) (r : ℕ)
        (out : EngineState × List Event),
      loadCount r inputs ≤ 1 →
      steps config initialEngineState inputs = some out →
      countTTPNT r out.2 ≤ 1) ∧
    (∀ (config : PlayerConfig) (s : EngineState) (i : EngineInput)
        (s' : EngineState) (evs : List Event) (r t : ℕ),
      step config s i = some (s', evs) →
      Event.TimeToPreloadNextTrack r t ∈ evs →
      i = EngineInput.checkPreload true ∧
      ((∃ dur pos rnst expl,
          s.state = PState.Playing t r dur pos rnst false expl ∧
          (dur : ℤ) - (pos : ℤ) < 30000) ∨
       (∃ dur pos expl,
          s.state = PState.Paused t r dur pos false expl ∧
          (dur : ℤ) - (pos : ℤ) < 30000))) := by
  constructor
  · intro config inputs r out hload hsteps
    have hinv : preloadOnceInv r 0 initialEngineState inputs := by
      refine ⟨by omega, fun _ => rfl, ?_⟩
      rw [if_neg]
      · simpa using hload
      · rintro (h | h)
        · omega
        · simp [initialEngineState, stateRid] at h
    have h := steps_preloadOnceInv config r inputs 0 initialEngineState out
      hinv hsteps
    omega
  · intro config s i s' evs r t hstep hmem
    exact step_ttpnt_mem config s i s' evs r t hstep hmem

/-- Witness for `claimC6_preload_hint`: a concrete four-step run (load,
loader completion, two preload checks) emits exactly one
`TimeToPreloadNextTrack`, and the emitting step satisfies the stated
conditions. -/
theorem claimC6_preload_hint_witness :
    (loadCount 1 inputsC6 ≤ 1 ∧
      steps cfgDyn initialEngineState inputsC6 = some outC6 ∧
      countTTPNT 1 outC6.2 ≤ 1) ∧
    (step cfgDyn sPlayingC6 (EngineInput.checkPreload true) =
        some (sPlayingC6', [Event.TimeToPreloadNextTrack 1 1]) ∧
      EngineInput.checkPreload true = EngineInput.checkPreload true ∧
      ((∃ dur pos rnst expl,
          sPlayingC6.state = PState.Playing 1 1 dur pos rnst false expl ∧
          (dur : ℤ) - (pos : ℤ) < 30000) ∨
       (∃ dur pos expl,
          sPlayingC6.state = PState.Paused 1 1 dur pos false expl ∧
          (dur : ℤ) - (pos : ℤ) < 30000))) :=
  ⟨⟨by decide, by decide,
      claimC6_preload_hint.1 cfgDyn inputsC6 1 outC6 (by decide) (by decide)⟩,
    ⟨by decide,
      (claimC6_preload_hint.2 cfgDyn sPlayingC6 (EngineInput.checkPreload true)
          sPlayingC6' [Event.TimeToPreloadNextTrack 1 1] 1 1 (by decide)
          (by simp)).1,
      (claimC6_preload_hint.2 cfgDyn sPlayingC6 (EngineInput.checkPreload true)
          sPlayingC6' [Event.TimeToPreloadNextTrack 1 1] 1 1 (by decide)
          (by simp)).2⟩⟩

/-! ## C9 and C10 — JSON-RPC request handling -/

/-- C9 as stated is false for a present but non-numeric id: the `_` arm of
the id `match` returns `JsonError::parse` (server.rs line 412), so a
request whose id is the string "abc" yields code −32700 (Parse), not
−32600 (InvalidRequest). -/
theorem claimC9_counterexample :
    (handle_request true psMirror
        (Json.obj [("id", Json.str "abc"), ("jsonrpc", Json.num (JNum.int 2)),
          ("method", Json.str "getVolume")])).1 =
      Except.error { id := none, code := JsonErrCode.Parse } ∧
    JsonErrCode.Parse.code = -32700 ∧
    JsonErrCode.Parse ≠ JsonErrCode.InvalidReq :=
  ⟨rfl, rfl, by decide⟩

/-- C9 (amended): a request with a missing (or null) id yields
InvalidRequest = −32600; a request whose id is present but not a JSON
number yields Parse = −32700; an id that is a number not representable as
`i64` yields InvalidRequest; a well-formed request with an unknown method
yields MethodNotFound = −32601; `setVolume` with params that is not a
number yields InvalidParams = −32602. -/
theorem claimC9_amended :
    (∀ (hs : Bool) (st : PlayerStateMirror) (val : Json),
      Json.index val "id" = Json.null →
      resultCode (handle_request hs st val) = some (-32600)) ∧
    (∀ (hs : Bool) (st : PlayerStateMirror) (val : Json),
      (∀ n, Json.index val "id" ≠ Json.num n) →
      Json.index val "id" ≠ Json.null →
      resultCode (handle_request hs st val) = some (-32700)) ∧
    (∀ (hs : Bool) (st : PlayerStateMirror) (val : Json) (n : JNum),
      Json.index val "id" = Json.num n → n.as_i64 = none →
      resultCode (handle_request hs st val) = some (-32600)) ∧
    (∀ (hs : Bool) (st : PlayerStateMirror) (fields : List (String × Json))
        (n jn : JNum) (z : ℤ) (m : String),
      fields.lookup "id" = some (Json.num n) → n.as_i64 = some z →
      fields.lookup "jsonrpc" = some (Json.num jn) →
      fields.lookup "method" = some (Json.str m) →
      m ∉ knownMethods →
      resultCode (handle_request hs st (Json.obj fields)) = some (-32601)) ∧
    (∀ (hs : Bool) (st : PlayerStateMirror) (fields : List (String × Json))
        (n jn : JNum) (z : ℤ),
      fields.lookup "id" = some (Json.num n) → n.as_i64 = some z →
      fields.lookup "jsonrpc" = some (Json.num jn) →
      fields.lookup "method" = some (Json.str "setVolume") →
      (∀ v, fields.lookup "params" ≠ some (Json.num v)) →
      resultCode (handle_request hs st (Json.obj fields)) = some (-32602)) := by
  refine ⟨?_, ?_, ?_, ?_, ?_⟩
  · intro hs st val h
    unfold handle_request
    rw [h]
    rfl
  · intro hs st val hn hnull
    unfold handle_request
    cases hidx : Json.index val "id"
    case null => exact absurd hidx hnull
    case num n => exact absurd hidx (hn n)
    all_goals rfl
  · intro hs st val n hidx hi
    unfold handle_request
    rw [hidx]
    simp [hi, resultCode, JsonError.invalid_request, JsonErrCode.code]
  · intro hs st fields n jn z m hid hiz hjs hm hunknown
    simp only [knownMethods, List.mem_cons, List.mem_singleton] at hunknown
    push_neg at hunknown
    obtain ⟨h1, h2, h3, h4, h5, h6, h7, h8, h9, -⟩ := hunknown
    have hdo : do_request hs st (Json.obj fields) =
        (Except.error JsonError.method_not_found, []) := by
      unfold do_request deserializeJsonRequest
      simp only [hid, hiz, hjs, hm]
    unfold handle_request
    simp only [Json.index, hid, Option.getD_some, hiz, hdo]
    rfl
  · intro hs st fields n jn z hid hiz hjs hm hp
    have hdo : do_request hs st (Json.obj fields) =
        (Except.error JsonError.invalid_param, []) := by
      unfold do_request deserializeJsonRequest
      simp only [hid, hiz, hjs, hm]
      cases hcase : fields.lookup "params" with
      | none => simp [hcase]
      | some p => cases p <;> simp_all
    unfold handle_request
    simp only [Json.index, hid, Option.getD_some, hiz, hdo]
    rfl

/-- Witness for `claimC9_amended` at concrete requests. -/
theorem claimC9_amended_witness :
    resultCode (handle_request true psMirror
        (Json.obj [("jsonrpc", Json.num (JNum.int 2)),
          ("method", Json.str "getVolume")])) = some (-32600) ∧
    resultCode (handle_request true psMirror
        (Json.obj [("id", Json.str "x")])) = some (-32700) ∧
    resultCode (handle_request true psMirror
        (Json.obj [("id", Json.num JNum.nonInt)])) = some (-32600) ∧
    resultCode (handle_request true psMirror
        (Json.obj [("id", Json.num (JNum.int 1)),
          ("jsonrpc", Json.num (JNum.int 2)),
          ("method", Json.str "foo")])) = some (-32601) ∧
    resultCode (handle_request true psMirror
        (Json.obj [("id", Json.num (JNum.int 1)),
          ("jsonrpc", Json.num (JNum.int 2)),
          ("method", Json.str "setVolume"),
          ("params", Json.str "loud")])) = some (-32602) :=
  ⟨claimC9_amended.1 true psMirror _ rfl,
    claimC9_amended.2.1 true psMirror _
      (fun n h => Json.noConfusion h) (fun h => Json.noConfusion h),
    claimC9_amended.2.2.1 true psMirror _ JNum.nonInt rfl rfl,
    claimC9_amended.2.2.2.1 true psMirror _ (JNum.int 1) (JNum.int 2) 1 "foo"
      rfl (by decide) rfl rfl (by decide),
    claimC9_amended.2.2.2.2 true psMirror _ (JNum.int 1) (JNum.int 2) 1
      rfl (by decide) rfl rfl
      (fun v h => Option.noConfusion h (fun h2 => Json.noConfusion h2))⟩

/-- C10: a `setVolume` request whose params is a JSON number holding a
non-negative integer `v < 2^64` is accepted (result "Ok") and the volume
forwarded on the spirc channel is `v` truncated `as u16`, i.e. reduced
modulo 2^16; values above 65535 are wrapped, not rejected. -/
theorem claimC10_setVolume_wraps (st : PlayerStateMirror)
    (fields : List (String × Json)) (n jn : JNum) (z v : ℤ)
    (hid : fields.lookup "id" = some (Json.num n)) (hiz : n.as_i64 = some z)
    (hjs : fields.lookup "jsonrpc" = some (Json.num jn))
    (hm : fields.lookup "method" = some (Json.str "setVolume"))
    (hp : fields.lookup "params" = some (Json.num (JNum.int v)))
    (h0 : 0 ≤ v) (h64 : v < 2 ^ 64) :
    handle_request true st (Json.obj fields) =
      (Except.ok { id := z, result := Json.str "Ok" },
        [SpircCommand.SetVolume (v.toNat % 2 ^ 16)]) := by
  have hdo : do_request true st (Json.obj fields) =
      (Except.ok { id := z, result := Json.str "Ok" },
        [SpircCommand.SetVolume (v.toNat % 2 ^ 16)]) := by
    unfold do_request deserializeJsonRequest
    simp only [hid, hiz, hjs, hm, hp]
    have h64' : v < 18446744073709551616 := by norm_num at h64; exact h64
    simp [JNum.as_u64, h0, h64', send_command]
  unfold handle_request
  simp only [Json.index, hid, Option.getD_some, hiz, hdo]
  rfl

/-- Witness for `claimC10_setVolume_wraps`: volume 70000 is accepted and
wraps to 70000 mod 65536 = 4464. -/
theorem claimC10_setVolume_wraps_witness :
    handle_request true psMirror
        (Json.obj [("id", Json.num (JNum.int 1)),
          ("jsonrpc", Json.num (JNum.int 2)),
          ("method", Json.str "setVolume"),
          ("params", Json.num (JNum.int 70000))]) =
      (Except.ok { id := 1, result := Json.str "Ok" },
        [SpircCommand.SetVolume 4464]) := by
  have h := claimC10_setVolume_wraps psMirror
    [("id", Json.num (JNum.int 1)), ("jsonrpc", Json.num (JNum.int 2)),
      ("method", Json.str "setVolume"), ("params", Json.num (JNum.int 70000))]
    (JNum.int 1) (JNum.int 2) 1 70000 rfl (by decide) rfl rfl rfl
    (by norm_num) (by norm_num)
  simpa using h
